import Mathlib

/-!
Verification development for a personalized feed generator
(streaming ingester, taste/fatigue engine, ranking core, serve-time fusion).

The definitions below are shallow embeddings of the TypeScript sources:
  * `subscription.ts`  (Jetstream ingester: event handling, batched flush, cursor)
  * `algos/taste-similarity.ts`  (taste reputation with time decay)
  * `algos/social-graph.ts`  (ranking pipeline: harvest, scoring, filter, dedup,
    diversity, cursored pagination; explicit more/less feedback)
  * `methods/feed-generation.ts`  (serve-time fusion over candidate batches)
  * `methods/send-interactions.ts`  (interaction ingest endpoint)

Modelling conventions, used consistently below:
  * JS numbers are modelled as exact rationals (`ℚ`) where the source only uses
    field operations, and as reals (`ℝ`) where `Math.pow` with fractional
    exponents appears; float rounding is out of scope.
  * ISO-8601 timestamp strings are modelled by their epoch-millisecond value
    (`ℤ`); string comparison on ISO UTC timestamps coincides with numeric
    comparison on these values.
  * SQL tables are lists of row structures in insertion order; `LIMIT n` is
    `List.take n`; `ORDER BY` is a stable sort.  JS `Array.prototype.sort` and
    SQL `ORDER BY` are modelled by the stable insertion sort `jsSort`; since
    the comparators used by the source induce total preorders and JS sort is
    required to be stable, any stable sort computes the same list.
  * `localeCompare` on the ASCII URIs and DIDs appearing here is modelled by
    code-point (lexicographic) string order.
-/

namespace FeedGen

/-- 32-bit signed truncation, the semantics of the JS `| 0` coercion. -/
def int32 (n : ℤ) : ℤ := (n + 2 ^ 31) % 2 ^ 32 - 2 ^ 31

/-- The JS `%` remainder operator (sign of the dividend), `Int.tmod`. -/
def jsMod (a b : ℤ) : ℤ := a.tmod b

/-- The string hash used for deterministic jitter:
`salt.split('').reduce((a, c) => ((a << 5) - a + c.charCodeAt(0)) | 0, 0)`. -/
def jsHash (s : String) : ℤ :=
  s.data.foldl (fun a c => int32 (int32 (a * 32) - a + c.toNat)) 0

/-- JS `Math.round` on exact rationals: `⌊x + 1/2⌋` (ties go up, as in JS). -/
def jsRoundQ (x : ℚ) : ℤ := ⌊x + 1 / 2⌋

/-- JS `Math.max` on rationals, written with `if` so that concrete values
reduce inside `decide`. -/
def jsMaxQ (a b : ℚ) : ℚ := if a ≤ b then b else a

/-- JS `Math.min` on rationals, written with `if` so that concrete values
reduce inside `decide`. -/
def jsMinQ (a b : ℚ) : ℚ := if a ≤ b then a else b

theorem jsMaxQ_eq_max (a b : ℚ) : jsMaxQ a b = max a b := by
  rw [jsMaxQ, max_def]

theorem jsMinQ_eq_min (a b : ℚ) : jsMinQ a b = min a b := by
  rw [jsMinQ, min_def]

/-- JS `Math.round` on reals: `⌊x + 1/2⌋` (ties go up, as in JS). -/
noncomputable def jsRoundR (x : ℝ) : ℤ := ⌊x + 1 / 2⌋

/-- Stable insertion of `x` into `acc`: `x` jumps over exactly the elements it
strictly precedes under `lt`, so elements comparing equal keep their relative
order. -/
def insSorted (lt : α → α → Bool) : α → List α → List α
  | x, [] => [x]
  | x, y :: l => if lt x y then x :: y :: l else y :: insSorted lt x l

/-- Stable sort: the semantics of JS `Array.prototype.sort` (mandated stable)
and of SQL `ORDER BY` for the total preorders used by the source. -/
def jsSort (lt : α → α → Bool) (l : List α) : List α :=
  l.foldl (fun acc x => insSorted lt x acc) []

/-- Membership in the kysely pattern
`xs.length > 0 ? xs : ['dummy']` used by every `IN` clause of the source. -/
def memOrDummy (xs : List String) (x : String) : Bool :=
  (if xs.isEmpty then ["dummy"] else xs).contains x

/-- First occurrence replacement, the semantics of JS
`String.prototype.replace` with a string pattern (chars). -/
def replaceFirstChars : List Char → List Char → List Char → List Char
  | [], _, _ => []
  | s@(c :: rest), pat, repl =>
    if pat.isPrefixOf s then repl ++ s.drop pat.length
    else c :: replaceFirstChars rest pat repl

/-- First occurrence replacement on strings (`str.replace('pat', 'repl')`). -/
def replaceFirst (s pat repl : String) : String :=
  ⟨replaceFirstChars s.data pat.data repl.data⟩

/-- Author extraction from an AT URI:
`uri.replace('at://', '').split('/')[0]`, accepted when it starts with
`did:` (used for interacted-author scope and fatigue bookkeeping). -/
def authorOfUri (uri : String) : Option String :=
  let rest := replaceFirst uri "at://" ""
  let h : String := ⟨rest.data.takeWhile (fun c => c != '/')⟩
  if "did:".data.isPrefixOf h.data then some h else none

/-! ## Taste reputation (`algos/taste-similarity.ts`, `updateTasteReputation`)

A reputation row as stored in `taste_reputation`.  The update first applies
time decay `score ← score · decayRate ^ (hoursSinceUpdate / 24)` and then the
action multiplier with its cap or floor, exactly as the source does. -/

structure TasteRepRow where
  userDid : String
  similarUserDid : String
  reputationScore : ℝ
  agreementHistory : ℝ
  lastSeenAtMs : ℤ
  decayRate : ℝ
  updatedAtMs : ℤ

/-- The six actions accepted by `updateTasteReputation`. -/
inductive RepAction
  | agreement
  | disagreement
  | served_ignored
  | served_liked
  | explicit_more
  | explicit_less
deriving DecidableEq, Repr

/-- Row created by `updateTasteReputation` when no (user, similarUser) row
exists: `initialScore = action === 'agreement' ? 1.2 : 0.8`, history 1 / −1 / 0,
default decay rate 0.95. -/
def repCreate (u v : String) (a : RepAction) (nowMs : ℤ) : TasteRepRow :=
  { userDid := u
    similarUserDid := v
    reputationScore := if a = .agreement then 1.2 else 0.8
    agreementHistory :=
      if a = .agreement then 1 else if a = .disagreement then -1 else 0
    lastSeenAtMs := nowMs
    decayRate := 0.95
    updatedAtMs := nowMs }

/-- One update of an existing reputation row: time decay
`score · decayRate ^ (Δh / 24)` followed by the per-action multiplier with its
cap or floor, the history delta and the decay-rate nudge, as in the source. -/
noncomputable def repStep (r : TasteRepRow) (a : RepAction) (nowMs : ℤ) : TasteRepRow :=
  let hoursSinceUpdate : ℝ := ((nowMs - r.updatedAtMs : ℤ) : ℝ) / (1000 * 60 * 60)
  let decayMultiplier : ℝ := r.decayRate ^ (hoursSinceUpdate / 24)
  let s : ℝ := r.reputationScore * decayMultiplier
  match a with
  | .agreement =>
    { r with reputationScore := min 3.0 (s * 1.15)
             agreementHistory := r.agreementHistory + 1
             decayRate := min 0.99 (r.decayRate * 1.02)
             lastSeenAtMs := nowMs, updatedAtMs := nowMs }
  | .disagreement =>
    { r with reputationScore := max 0.1 (s * 0.85)
             agreementHistory := r.agreementHistory - 1
             decayRate := max 0.80 (r.decayRate * 0.95)
             lastSeenAtMs := nowMs, updatedAtMs := nowMs }
  | .explicit_more =>
    { r with reputationScore := min 5.0 (s * 1.6)
             agreementHistory := r.agreementHistory + 3.0
             decayRate := min 0.999 (r.decayRate * 1.1)
             lastSeenAtMs := nowMs, updatedAtMs := nowMs }
  | .explicit_less =>
    { r with reputationScore := max 0.001 (s * 0.1)
             agreementHistory := r.agreementHistory - 5.0
             decayRate := max 0.5 (r.decayRate * 0.5)
             lastSeenAtMs := nowMs, updatedAtMs := nowMs }
  | .served_liked =>
    { r with reputationScore := min 3.0 (s * 1.05)
             agreementHistory := r.agreementHistory + 0.5
             decayRate := min 0.99 (r.decayRate * 1.01)
             lastSeenAtMs := nowMs, updatedAtMs := nowMs }
  | .served_ignored =>
    { r with reputationScore := max 0.1 (s * 0.95)
             agreementHistory := r.agreementHistory - 0.25
             decayRate := max 0.85 (r.decayRate * 0.99)
             lastSeenAtMs := nowMs, updatedAtMs := nowMs }

/-- `updateTasteReputation` at table level: insert the initial row when the
(user, similarUser) pair is absent, otherwise decay-and-update the row. -/
noncomputable def updateTasteReputation (rows : List TasteRepRow) (u v : String)
    (a : RepAction) (nowMs : ℤ) : List TasteRepRow :=
  if rows.any (fun r => r.userDid == u && r.similarUserDid == v) then
    rows.map (fun r =>
      if r.userDid == u && r.similarUserDid == v then repStep r a nowMs else r)
  else
    rows ++ [repCreate u v a nowMs]

/-- A sequence of `updateTasteReputation` calls on one row. -/
noncomputable def runRep (r : TasteRepRow) : List (RepAction × ℤ) → TasteRepRow
  | [] => r
  | (a, t) :: rest => runRep (repStep r a t) rest

/-- Call times never precede the timestamp of the row they update
(wall clock moves forward), so the elapsed-hours decay exponent is nonnegative. -/
def timesOK : ℤ → List (RepAction × ℤ) → Prop
  | _, [] => True
  | t, (_, s) :: rest => t ≤ s ∧ timesOK s rest

/-- All calls happen at the very moment of the previous update
(no decay time elapses). -/
def timesZero : ℤ → List (RepAction × ℤ) → Prop
  | _, [] => True
  | t, (_, s) :: rest => s = t ∧ timesZero t rest

/-- Invariant provable for all reachable reputation rows: positive score
bounded by 5, decay rate inside [0.5, 0.999]. -/
def RepInv (r : TasteRepRow) : Prop :=
  0 < r.reputationScore ∧ r.reputationScore ≤ 5 ∧
    0.5 ≤ r.decayRate ∧ r.decayRate ≤ 0.999

/-- Tighter invariant that additionally keeps the documented 0.001 floor;
it is only preserved when no decay time elapses between calls. -/
def RepInvZ (r : TasteRepRow) : Prop :=
  0.001 ≤ r.reputationScore ∧ r.reputationScore ≤ 5 ∧
    0.5 ≤ r.decayRate ∧ r.decayRate ≤ 0.999

theorem repCreate_inv (u v : String) (a : RepAction) (t : ℤ) :
    RepInvZ (repCreate u v a t) := by
  cases a <;> simp [RepInvZ, repCreate] <;> norm_num

theorem repInvZ_repInv {r : TasteRepRow} (h : RepInvZ r) : RepInv r :=
  ⟨by have := h.1; norm_num at this ⊢; linarith, h.2.1, h.2.2.1, h.2.2.2⟩

theorem repStep_updatedAt (r : TasteRepRow) (a : RepAction) (now : ℤ) :
    (repStep r a now).updatedAtMs = now := by
  cases a <;> rfl

theorem decay_bounds {dr : ℝ} (h1 : 0.5 ≤ dr) (h2 : dr ≤ 0.999) {e : ℝ}
    (he : 0 ≤ e) : 0 < dr ^ e ∧ dr ^ e ≤ 1 :=
  ⟨Real.rpow_pos_of_pos (by norm_num at h1 ⊢; linarith) e,
   Real.rpow_le_one (by norm_num at h1 ⊢; linarith)
     (by norm_num at h2 ⊢; linarith) he⟩

theorem repStep_inv {r : TasteRepRow} (h : RepInv r) {now : ℤ}
    (ht : r.updatedAtMs ≤ now) (a : RepAction) : RepInv (repStep r a now) := by
  obtain ⟨hs0, hs5, hd1, hd2⟩ := h
  have he : (0 : ℝ) ≤ ((now - r.updatedAtMs : ℤ) : ℝ) / (1000 * 60 * 60) / 24 := by
    have : (0 : ℝ) ≤ ((now - r.updatedAtMs : ℤ) : ℝ) := by
      exact_mod_cast Int.sub_nonneg.mpr ht
    positivity
  obtain ⟨hdp, hdl⟩ := decay_bounds hd1 hd2 he
  set d : ℝ := r.decayRate ^ (((now - r.updatedAtMs : ℤ) : ℝ) / (1000 * 60 * 60) / 24) with hdd
  have hsd0 : 0 < r.reputationScore * d := mul_pos hs0 hdp
  have hsd5 : r.reputationScore * d ≤ 5 := by nlinarith
  norm_num at hs5 hd1 hd2 hsd5
  cases a <;> simp only [repStep, RepInv, ← hdd]
  case agreement =>
    refine ⟨lt_min (by norm_num) (by nlinarith), le_trans (min_le_left _ _) (by norm_num),
      le_min (by norm_num) (by nlinarith), le_trans (min_le_left _ _) (by norm_num)⟩
  case disagreement =>
    refine ⟨lt_max_of_lt_left (by norm_num), max_le (by norm_num) (by nlinarith),
      le_max_of_le_left (by norm_num), max_le (by norm_num) (by nlinarith)⟩
  case explicit_more =>
    refine ⟨lt_min (by norm_num) (by nlinarith), le_trans (min_le_left _ _) (by norm_num),
      le_min (by norm_num) (by nlinarith), le_trans (min_le_left _ _) (by norm_num)⟩
  case explicit_less =>
    refine ⟨lt_max_of_lt_left (by norm_num), max_le (by norm_num) (by nlinarith),
      le_max_left _ _, max_le (by norm_num) (by nlinarith)⟩
  case served_liked =>
    refine ⟨lt_min (by norm_num) (by nlinarith), le_trans (min_le_left _ _) (by norm_num),
      le_min (by norm_num) (by nlinarith), le_trans (min_le_left _ _) (by norm_num)⟩
  case served_ignored =>
    refine ⟨lt_max_of_lt_left (by norm_num), max_le (by norm_num) (by nlinarith),
      le_max_of_le_left (by norm_num), max_le (by norm_num) (by nlinarith)⟩

theorem repStep_invZ {r : TasteRepRow} (h : RepInvZ r) (a : RepAction) :
    RepInvZ (repStep r a r.updatedAtMs) := by
  obtain ⟨hs0, hs5, hd1, hd2⟩ := h
  have hdz : r.decayRate ^ (((r.updatedAtMs - r.updatedAtMs : ℤ) : ℝ) / (1000 * 60 * 60) / 24) = 1 := by
    have hzero : ((r.updatedAtMs - r.updatedAtMs : ℤ) : ℝ) / (1000 * 60 * 60) / 24 = 0 := by
      simp
    rw [hzero, Real.rpow_zero]
  have hs0R : (0.001 : ℝ) ≤ r.reputationScore := hs0
  norm_num at hs0 hs5 hd1 hd2
  cases a <;> simp only [repStep, RepInvZ, hdz, mul_one]
  case agreement =>
    refine ⟨le_min (by norm_num) (by nlinarith), le_trans (min_le_left _ _) (by norm_num),
      le_min (by norm_num) (by nlinarith), le_trans (min_le_left _ _) (by norm_num)⟩
  case disagreement =>
    refine ⟨le_max_of_le_left (by norm_num), max_le (by norm_num) (by nlinarith),
      le_max_of_le_left (by norm_num), max_le (by norm_num) (by nlinarith)⟩
  case explicit_more =>
    refine ⟨le_min (by norm_num) (by nlinarith), le_trans (min_le_left _ _) (by norm_num),
      le_min (by norm_num) (by nlinarith), le_trans (min_le_left _ _) (by norm_num)⟩
  case explicit_less =>
    refine ⟨le_max_left _ _, max_le (by norm_num) (by nlinarith),
      le_max_left _ _, max_le (by norm_num) (by nlinarith)⟩
  case served_liked =>
    refine ⟨le_min (by norm_num) (by nlinarith), le_trans (min_le_left _ _) (by norm_num),
      le_min (by norm_num) (by nlinarith), le_trans (min_le_left _ _) (by norm_num)⟩
  case served_ignored =>
    refine ⟨le_max_of_le_left (by norm_num), max_le (by norm_num) (by nlinarith),
      le_max_of_le_left (by norm_num), max_le (by norm_num) (by nlinarith)⟩

theorem runRep_inv {r : TasteRepRow} {calls : List (RepAction × ℤ)}
    (hInv : RepInv r) (h : timesOK r.updatedAtMs calls) :
    RepInv (runRep r calls) := by
  induction calls generalizing r with
  | nil => exact hInv
  | cons c rest ih =>
    obtain ⟨a, t⟩ := c
    obtain ⟨h1, h2⟩ := h
    have := repStep_inv hInv h1 a
    exact ih this (by rw [repStep_updatedAt]; exact h2)

theorem runRep_invZ {r : TasteRepRow} {calls : List (RepAction × ℤ)}
    (hInv : RepInvZ r) (h : timesZero r.updatedAtMs calls) :
    RepInvZ (runRep r calls) := by
  induction calls generalizing r with
  | nil => exact hInv
  | cons c rest ih =>
    obtain ⟨a, t⟩ := c
    obtain ⟨h1, h2⟩ := h
    subst h1
    have := repStep_invZ hInv a
    exact ih this (by rw [repStep_updatedAt]; exact h2)

/-- C3 counterexample: the claimed invariant `reputationScore ∈ [0.001, 5.0]`
fails on the code.  Create a (U,V) reputation row by an `agreement` call at
time 0 (score 1.2, decay rate 0.95) and issue a second `agreement` call 200
days later: time decay multiplies the score by `0.95 ^ 200` before the ×1.15
boost, and the `agreement` branch has no lower clamp, so the stored score
drops strictly below 0.001. -/
theorem reputation_floor_counterexample :
    (runRep (repCreate "u" "v" .agreement 0)
      [(.agreement, 17280000000)]).reputationScore < 0.001 := by
  show (repStep (repCreate "u" "v" .agreement 0) .agreement
      17280000000).reputationScore < 0.001
  simp only [repStep, repCreate]
  norm_num

/-- C3 amended: for every (U,V) and every sequence of `updateTasteReputation`
calls whose call times never run backwards, the stored `reputationScore` stays
in (0, 5.0] after every call; the claimed lower bound 0.001 additionally holds
whenever no decay time elapses between the calls (the `agreement`,
`explicit_more` and `served_liked` branches have caps but no floor, so with
elapsed time the decay can push the score below 0.001, as the counterexample
shows). -/
theorem reputation_bounds (u v : String) (a₀ : RepAction) (t₀ : ℤ)
    (calls : List (RepAction × ℤ)) (h : timesOK t₀ calls) :
    (0 < (runRep (repCreate u v a₀ t₀) calls).reputationScore ∧
      (runRep (repCreate u v a₀ t₀) calls).reputationScore ≤ 5) ∧
    (timesZero t₀ calls →
      0.001 ≤ (runRep (repCreate u v a₀ t₀) calls).reputationScore ∧
        (runRep (repCreate u v a₀ t₀) calls).reputationScore ≤ 5) := by
  have hc : RepInvZ (repCreate u v a₀ t₀) := repCreate_inv u v a₀ t₀
  have hupd : (repCreate u v a₀ t₀).updatedAtMs = t₀ := rfl
  constructor
  · have := runRep_inv (repInvZ_repInv hc) (by rw [hupd]; exact h)
    exact ⟨this.1, this.2.1⟩
  · intro hz
    have := runRep_invZ hc (by rw [hupd]; exact hz)
    exact ⟨this.1, this.2.1⟩

/-- Witness for the amended C3 theorem at a concrete input: creation by
`agreement` at time 0 followed by one `served_liked` call at time 0. -/
theorem reputation_bounds_witness :
    (0 < (runRep (repCreate "u" "v" .agreement 0)
        [(.served_liked, 0)]).reputationScore ∧
      (runRep (repCreate "u" "v" .agreement 0)
        [(.served_liked, 0)]).reputationScore ≤ 5) ∧
    (timesZero 0 [(.served_liked, 0)] →
      0.001 ≤ (runRep (repCreate "u" "v" .agreement 0)
          [(.served_liked, 0)]).reputationScore ∧
        (runRep (repCreate "u" "v" .agreement 0)
          [(.served_liked, 0)]).reputationScore ≤ 5) :=
  reputation_bounds "u" "v" .agreement 0 [(.served_liked, 0)]
    ⟨le_refl 0, trivial⟩

/-! ## Data model shared by the ingester and the ranking core -/

/-- A `post` table row (see migrations 001/002 and later media columns). -/
structure Post where
  uri : String
  cid : String
  author : String
  indexedAtMs : ℤ
  likeCount : ℤ
  replyCount : ℤ
  repostCount : ℤ
  replyRoot : Option String
  replyParent : Option String
  text : Option String
  hasImage : Bool
  hasVideo : Bool
  hasExternal : Bool
deriving DecidableEq, Repr

/-- Interaction type stored in `graph_interaction.type`. -/
inductive IType
  | like
  | repost
  | reply
deriving DecidableEq, Repr

/-- A `graph_interaction` row; unique on (actor, target, type) by migration 006. -/
structure InteractionRow where
  actor : String
  target : String
  itype : IType
  weight : ℤ
  indexedAtMs : ℤ
  interactionUri : Option String
deriving DecidableEq, Repr

/-! ## Event ingester (`subscription.ts`, `JetstreamSubscription`) -/

/-- `record.reply` of a Jetstream post commit. -/
structure JReply where
  root : Option String
  parent : Option String
deriving DecidableEq, Repr

/-- `record.embed`: its `$type` and, for `recordWithMedia`, the media `$type`. -/
structure JEmbed where
  etype : String
  mediaType : Option String
deriving DecidableEq, Repr

/-- The fields of a Jetstream commit record read by the ingester. -/
structure JRecord where
  reply : Option JReply
  text : Option String
  embed : Option JEmbed
  subject : Option String
deriving DecidableEq, Repr

/-- A Jetstream commit payload. -/
structure JCommit where
  operation : String
  collection : String
  rkey : String
  record : JRecord
  cid : String
deriving DecidableEq, Repr

/-- A Jetstream event; `handleEvent` ignores events whose kind is not
`commit`, so the commit payload is kept unconditionally. -/
structure JEvent where
  kind : String
  did : String
  timeUs : ℤ
  commit : JCommit
deriving DecidableEq, Repr

/-- Ingester configuration: `trackedDids` guards the synchronous taste and
fatigue calls (`!this.config.trackedDids || this.config.trackedDids.has(did)`). -/
structure IngConfig where
  wantedCollections : List String
  trackedDids : Option (List String)
deriving DecidableEq, Repr

/-- Durable store state touched by the ingester: the post table, the
interaction table and the `sub_state` cursor row for the service. -/
structure IngStore where
  posts : List Post
  interactions : List InteractionRow
  subCursor : Option ℤ
deriving DecidableEq, Repr

/-- The six in-memory pending batches of the ingester. -/
structure Pending where
  likes : List (String × ℤ)
  reposts : List (String × ℤ)
  posts : List Post
  postDeletes : List String
  replyCounts : List (String × ℤ)
  graphInteractions : List InteractionRow
deriving DecidableEq, Repr

/-- All pending batches empty. -/
def Pending.empty : Pending := ⟨[], [], [], [], [], []⟩

/-- Full ingester state: store, pending batches, the in-memory cursor and the
tracked-interaction set.  `tasteCalls` and `fatigueCalls` record the
synchronous `updateTasteSimilarity` and `updateAuthorFatigueOnInteraction`
invocations (their argument lists), so the model stays a faithful record of
when those engines are entered without inlining their bodies here. -/
structure IngState where
  store : IngStore
  pending : Pending
  cursor : Option ℤ
  trackedInteractionDids : List String
  tasteCalls : List (String × String)
  fatigueCalls : List (String × String × IType)
deriving DecidableEq, Repr

/-- JS `Map.set(k, (map.get(k) || 0) + n)`: update in place, else append. -/
def bump (m : List (String × ℤ)) (k : String) (n : ℤ) : List (String × ℤ) :=
  if m.any (fun p => p.1 == k) then
    m.map (fun p => if p.1 == k then (p.1, p.2 + n) else p)
  else m ++ [(k, n)]

/-- JS `Set.add`. -/
def addSet (s : List String) (x : String) : List String :=
  if s.contains x then s else s ++ [x]

/-- Strip embedded NUL characters from a post text and apply the JS
`|| null` coercion (`record.text?.replace(/\u0000/g, '') || null`). -/
def sanitizeText : Option String → Option String
  | none => none
  | some t =>
    let t' : String := ⟨t.data.filter (fun c => c ≠ Char.ofNat 0)⟩
    if t' = "" then none else some t'

/-- `JetstreamSubscription.handleEvent` as a pure transition on the ingester
state.  The trailing `else if` for reply interactions is kept from the source
even though the first branch already captures every post commit, making it
unreachable. -/
def handleEvent (cfg : IngConfig) (nowMs : ℤ) (s : IngState) (e : JEvent) :
    IngState :=
  if e.kind ≠ "commit" then s else
  let c := e.commit
  let uri := "at://" ++ e.did ++ "/" ++ c.collection ++ "/" ++ c.rkey
  let tracked : Bool :=
    match cfg.trackedDids with
    | none => true
    | some l => l.contains e.did
  let s1 :=
    if c.collection == "app.bsky.feed.post" then
      if c.operation == "create" then
        let replyRoot := c.record.reply.bind (fun r => r.root)
        let replyParent := c.record.reply.bind (fun r => r.parent)
        let hasImage :=
          (c.record.embed.map (fun em => em.etype == "app.bsky.embed.images" ||
            (em.etype == "app.bsky.embed.recordWithMedia" &&
              em.mediaType == some "app.bsky.embed.images"))).getD false
        let hasVideo :=
          (c.record.embed.map (fun em => em.etype == "app.bsky.embed.video" ||
            (em.etype == "app.bsky.embed.recordWithMedia" &&
              em.mediaType == some "app.bsky.embed.video"))).getD false
        let hasExternal :=
          (c.record.embed.map (fun em =>
            em.etype == "app.bsky.embed.external")).getD false
        let newPost : Post :=
          { uri := uri, cid := c.cid, author := e.did, indexedAtMs := nowMs
            likeCount := 0, replyCount := 0, repostCount := 0
            replyRoot := replyRoot, replyParent := replyParent
            text := sanitizeText c.record.text
            hasImage := hasImage, hasVideo := hasVideo, hasExternal := hasExternal }
        { s with pending :=
            { s.pending with
                posts := s.pending.posts ++ [newPost]
                replyCounts :=
                  match replyParent with
                  | some rp => bump s.pending.replyCounts rp 1
                  | none => s.pending.replyCounts } }
      else if c.operation == "delete" then
        { s with pending :=
            { s.pending with postDeletes := addSet s.pending.postDeletes uri } }
      else s
    else if c.collection == "app.bsky.feed.like" then
      if c.operation == "create" then
        match c.record.subject with
        | some subjectUri =>
          let p1 := { s.pending with likes := bump s.pending.likes subjectUri 1 }
          let p2 :=
            if s.trackedInteractionDids.contains e.did then
              { p1 with graphInteractions := p1.graphInteractions ++
                  [⟨e.did, subjectUri, .like, 1, nowMs, some uri⟩] }
            else p1
          let s' := { s with pending := p2 }
          if tracked then
            { s' with tasteCalls := s'.tasteCalls ++ [(e.did, subjectUri)]
                      fatigueCalls := s'.fatigueCalls ++ [(e.did, subjectUri, .like)] }
          else s'
        | none => s
      else s
    else if c.collection == "app.bsky.feed.repost" then
      if c.operation == "create" then
        match c.record.subject with
        | some subjectUri =>
          let p1 := { s.pending with reposts := bump s.pending.reposts subjectUri 1 }
          let p2 :=
            if s.trackedInteractionDids.contains e.did then
              { p1 with graphInteractions := p1.graphInteractions ++
                  [⟨e.did, subjectUri, .repost, 2, nowMs, some uri⟩] }
            else p1
          let s' := { s with pending := p2 }
          if tracked then
            { s' with fatigueCalls := s'.fatigueCalls ++ [(e.did, subjectUri, .repost)] }
          else s'
        | none => s
      else s
    else if c.collection == "app.bsky.feed.post" && c.operation == "create" &&
        c.record.reply.isSome then
      -- Unreachable: the first branch already handles every post commit.
      match c.record.reply.bind (fun r => r.parent) with
      | some replyParent =>
        let p2 :=
          if s.trackedInteractionDids.contains e.did then
            { s.pending with graphInteractions := s.pending.graphInteractions ++
                [⟨e.did, replyParent, .reply, 1, nowMs, some uri⟩] }
          else s.pending
        let s' := { s with pending := p2 }
        if tracked then
          { s' with fatigueCalls := s'.fatigueCalls ++ [(e.did, replyParent, .reply)] }
        else s'
      | none => s
    else s
  if e.timeUs ≠ 0 then { s1 with cursor := some e.timeUs } else s1

/-- Bulk post insert with `ON CONFLICT DO NOTHING` on the `uri` primary key
(chunking by 500 does not change the result). -/
def applyPostInserts (posts : List Post) (newPosts : List Post) : List Post :=
  newPosts.foldl
    (fun acc p => if acc.any (fun q => q.uri == p.uri) then acc else acc ++ [p])
    posts

/-- Aggregation of pending like / repost / reply deltas into per-URI counter
updates, in the order the source builds `postUpdates`. -/
def aggregateUpdates (likes reposts replies : List (String × ℤ)) :
    List (String × ℤ × ℤ × ℤ) :=
  let add3 := fun (m : List (String × ℤ × ℤ × ℤ)) (k : String)
      (d : ℤ × ℤ × ℤ) =>
    if m.any (fun p => p.1 == k) then
      m.map (fun p => if p.1 == k then
        (p.1, p.2.1 + d.1, p.2.2.1 + d.2.1, p.2.2.2 + d.2.2) else p)
    else m ++ [(k, d)]
  let m1 := likes.foldl (fun m e => add3 m e.1 (e.2, 0, 0)) []
  let m2 := reposts.foldl (fun m e => add3 m e.1 (0, e.2, 0)) m1
  replies.foldl (fun m e => add3 m e.1 (0, 0, e.2)) m2

/-- Apply the URI-sorted counter updates; each positive delta becomes an
atomic `col = col + Δ` on the matching post row (a missing row is a no-op). -/
def applyCounterUpdates (posts : List Post)
    (upd : List (String × ℤ × ℤ × ℤ)) : List Post :=
  upd.foldl
    (fun acc e =>
      acc.map (fun p =>
        if p.uri == e.1 then
          { p with
              likeCount := if e.2.1 > 0 then p.likeCount + e.2.1 else p.likeCount
              repostCount := if e.2.2.1 > 0 then p.repostCount + e.2.2.1 else p.repostCount
              replyCount := if e.2.2.2 > 0 then p.replyCount + e.2.2.2 else p.replyCount }
        else p))
    acc₀
  where acc₀ := posts

/-- Interaction insert with `ON CONFLICT DO NOTHING` on the unique
(actor, target, type) index. -/
def applyInteractionInserts (rows : List InteractionRow)
    (newRows : List InteractionRow) : List InteractionRow :=
  newRows.foldl
    (fun acc r =>
      if acc.any (fun q => q.actor == r.actor && q.target == r.target &&
          q.itype == r.itype) then acc
      else acc ++ [r])
    rows

/-- `flushBatch` (success path): skip when every pending batch is empty,
otherwise apply post inserts, deletes, URI-sorted counter increments and
interaction inserts in one transaction, clear the batches, and persist the
in-memory cursor when it is set (JS truthiness: a zero cursor is not
persisted). -/
def flushBatch (s : IngState) : IngState :=
  if s.pending = Pending.empty then s
  else
    let posts1 := applyPostInserts s.store.posts s.pending.posts
    let posts2 := posts1.filter (fun p => ¬ s.pending.postDeletes.contains p.uri)
    let upd := jsSort (fun a b => a.1 < b.1)
      (aggregateUpdates s.pending.likes s.pending.reposts s.pending.replyCounts)
    let posts3 := applyCounterUpdates posts2 upd
    let inter := applyInteractionInserts s.store.interactions
      s.pending.graphInteractions
    let store1 : IngStore :=
      { posts := posts3
        interactions := inter
        subCursor := s.store.subCursor }
    let store2 :=
      match s.cursor with
      | some c => if c ≠ 0 then { store1 with subCursor := some c } else store1
      | none => store1
    { s with store := store2, pending := Pending.empty }

/-- Fresh ingester process over a durable store: `run()` loads the persisted
cursor into memory; pending batches and the tracked set start empty. -/
def ingesterStart (store : IngStore) : IngState :=
  { store := store, pending := Pending.empty, cursor := store.subCursor
    trackedInteractionDids := [], tasteCalls := [], fatigueCalls := [] }

/-- Feed a list of events through `handleEvent`. -/
def runEvents (cfg : IngConfig) (nowMs : ℤ) (s : IngState)
    (es : List JEvent) : IngState :=
  es.foldl (handleEvent cfg nowMs) s

/-! ### The cursor-resume scenario of C2 -/

/-- An empty Jetstream record. -/
def jRecNone : JRecord := { reply := none, text := none, embed := none, subject := none }

/-- Ingester configuration for the scenario: the scenario actors are not in
the tracked-own whitelist, so no synchronous taste or fatigue calls fire. -/
def c2Cfg : IngConfig :=
  { wantedCollections :=
      ["app.bsky.feed.post", "app.bsky.feed.like", "app.bsky.feed.repost"]
    trackedDids := some [] }

/-- URI of the post P1 created at t=100. -/
def c2P1uri : String := "at://did:ex:a/app.bsky.feed.post/p1"

/-- t=100: create post P1. -/
def c2E1 : JEvent :=
  { kind := "commit", did := "did:ex:a", timeUs := 100
    commit := { operation := "create", collection := "app.bsky.feed.post"
                rkey := "p1", record := jRecNone, cid := "cid1" } }

/-- t=200: a like of P1. -/
def c2E2 : JEvent :=
  { kind := "commit", did := "did:ex:u", timeUs := 200
    commit := { operation := "create", collection := "app.bsky.feed.like"
                rkey := "l1"
                record := { jRecNone with subject := some c2P1uri }
                cid := "cid2" } }

/-- t=300: the flush barrier, a commit in a collection the ingester does not
handle; it only advances the in-memory cursor to 300. -/
def c2E3 : JEvent :=
  { kind := "commit", did := "did:ex:s", timeUs := 300
    commit := { operation := "create", collection := "app.bsky.feed.generator"
                rkey := "g1", record := jRecNone, cid := "cid3" } }

/-- First run: ingest the three events and flush; the crash then discards the
(already empty) in-memory state, leaving only the durable store. -/
def c2Run1 : IngState :=
  flushBatch (runEvents c2Cfg 0
    (ingesterStart { posts := [], interactions := [], subCursor := none })
    [c2E1, c2E2, c2E3])

/-- Restart after the crash: the upstream replays every event with
`time_us ≥ 150`, i.e. the like at t=200 and the barrier at t=300; then the
timer flush runs. -/
def c2Final : IngState :=
  flushBatch (runEvents c2Cfg 0 (ingesterStart c2Run1.store) [c2E2, c2E3])

/-- C2 counterexample: after crash and replay from t=150 the claim expects
`likeCount = 1`, but the replayed like enqueues a second `likeCount++` and the
flush applies it: counter increments are not protected by any uniqueness
constraint, so the final `likeCount` is 2, refuting the claimed final state. -/
theorem ingest_replay_counterexample :
    ¬ (((c2Final.store.posts.filter (fun p => p.uri == c2P1uri)).length = 1) ∧
      (c2Final.store.posts.filter (fun p => p.uri == c2P1uri)).map
        Post.likeCount = [1] ∧
      c2Final.store.subCursor = some 300) := by
  decide

/-- C2 amended: the replayed ingestion leaves exactly one `post` row for P1
(the row insert is absorbed by `ON CONFLICT DO NOTHING` on the URI key), the
persisted cursor is 300, but `likeCount` ends at 2: the replayed like is
aggregated into a second `likeCount = likeCount + 1` update, which no
uniqueness constraint deduplicates. -/
theorem ingest_replay_amended :
    ((c2Final.store.posts.filter (fun p => p.uri == c2P1uri)).length = 1) ∧
    (c2Final.store.posts.filter (fun p => p.uri == c2P1uri)).map
      Post.likeCount = [2] ∧
    c2Final.store.subCursor = some 300 := by
  decide

/-! ## Interaction ingest (`methods/send-interactions.ts`) -/

/-- The `app.bsky.feed.defs#…` event constants of a `sendInteractions` entry
that the handler inspects; every other event string is `other`. -/
inductive FEvent
  | interactionSeen
  | interactionLike
  | interactionDislike
  | requestLess
  | requestMore
  | other
deriving DecidableEq, Repr

/-- Feedback polarity passed to `handleInteractionFeedback`. -/
inductive FType
  | more
  | less
deriving DecidableEq, Repr

/-- Feedback strength passed to `handleInteractionFeedback`. -/
inductive FStrength
  | strong
  | weak
deriving DecidableEq, Repr

/-- One entry of the `sendInteractions` input array. -/
structure SIEntry where
  event : FEvent
  item : Option String
deriving DecidableEq, Repr

/-- The four events forwarded to the explicit-feedback path. -/
def isFeedbackEvent : FEvent → Bool
  | .interactionLike => true
  | .interactionDislike => true
  | .requestLess => true
  | .requestMore => true
  | _ => false

/-- JS truthiness of `interaction.item` (absent or empty is falsy). -/
def truthyItem : Option String → Bool
  | some s => s ≠ ""
  | none => false

/-- `isPositive`: like and requestMore map to `more`, the rest to `less`. -/
def polarityOf (e : FEvent) : FType :=
  if e == .interactionLike || e == .requestMore then .more else .less

/-- `interaction.event.includes('request')`: of the four forwarded constants
exactly `#requestMore` and `#requestLess` contain the substring `request`. -/
def strengthOf (e : FEvent) : FStrength :=
  if e == .requestMore || e == .requestLess then .strong else .weak

/-- Observable effects of one `sendInteractions` request: the rows written to
`user_seen_post`, the `updateAffinityOnSeen` calls, and the
`handleInteractionFeedback` calls with their argument triples. -/
structure SIResult where
  seenRows : List (String × String)
  affinityCalls : List (String × String)
  feedbackCalls : List (Option String × FType × FStrength)
deriving DecidableEq, Repr

/-- The `sendInteractions` handler.  Affinity updates and the explicit
feedback loop are nested inside `if (seenRecords.length > 0)`: a request with
no `interactionSeen` entry performs nothing at all. -/
def sendInteractions (userDid : String) (interactions : List SIEntry) :
    SIResult :=
  if interactions.isEmpty then ⟨[], [], []⟩
  else
    let seenRecords := interactions.filter
      (fun i => i.event == .interactionSeen && truthyItem i.item)
    if seenRecords.isEmpty then ⟨[], [], []⟩
    else
      let seenRows := seenRecords.map (fun i => (userDid, i.item.getD ""))
      let affinityCalls := seenRecords.map (fun i => (userDid, i.item.getD ""))
      let feedbackInteractions := interactions.filter
        (fun i => isFeedbackEvent i.event)
      let feedbackCalls := feedbackInteractions.map
        (fun i => (i.item, polarityOf i.event, strengthOf i.event))
      ⟨seenRows, affinityCalls, feedbackCalls⟩

/-- C9 counterexample: a request consisting of a single `interactionLike`
entry: the entry is a feedback event, yet because the request contains no
`interactionSeen` entry, the handler invokes the explicit-feedback path for
nothing — refuting the claim that the path runs regardless of the other event
types in the request. -/
theorem sendInteractions_counterexample :
    isFeedbackEvent .interactionLike = true ∧
    (sendInteractions "did:ex:u"
      [⟨.interactionLike, some "at://did:ex:a/app.bsky.feed.post/1"⟩]).feedbackCalls = [] := by
  decide

/-- C9 amended: provided the request contains at least one `interactionSeen`
entry with a non-empty item, every entry whose event is `interactionLike`,
`requestMore`, `interactionDislike` or `requestLess` is forwarded to the
explicit-feedback path with polarity `more` for interactionLike/requestMore
and `less` otherwise, and strength `strong` for requestMore/requestLess and
`weak` otherwise. -/
theorem sendInteractions_feedback (u : String) (ints : List SIEntry)
    (h : ∃ s ∈ ints, s.event = .interactionSeen ∧ truthyItem s.item = true) :
    ∀ i ∈ ints, isFeedbackEvent i.event = true →
      (i.item, polarityOf i.event, strengthOf i.event) ∈
        (sendInteractions u ints).feedbackCalls := by
  intro i hi hfb
  obtain ⟨s, hs, hse, hst⟩ := h
  have hne : ¬ ints.isEmpty := by
    cases ints with
    | nil => cases hs
    | cons a l => simp [List.isEmpty]
  have hsf : s ∈ ints.filter (fun i => i.event == .interactionSeen && truthyItem i.item) := by
    rw [List.mem_filter]
    exact ⟨hs, by simp [hse, hst]⟩
  have hsne : ¬ (ints.filter (fun i => i.event == .interactionSeen &&
      truthyItem i.item)).isEmpty := by
    rw [List.isEmpty_iff]
    intro hnil
    rw [hnil] at hsf
    cases hsf
  rw [sendInteractions, if_neg hne, if_neg hsne]
  exact List.mem_map_of_mem _ (List.mem_filter.mpr ⟨hi, hfb⟩)

/-- Witness for the amended C9 theorem: a request pairing one seen entry with
one `requestLess` entry yields the strong-less feedback call. -/
theorem sendInteractions_feedback_witness :
    (some "at://did:ex:a/app.bsky.feed.post/1", FType.less, FStrength.strong) ∈
      (sendInteractions "did:ex:u"
        [⟨.interactionSeen, some "at://did:ex:a/app.bsky.feed.post/0"⟩,
         ⟨.requestLess, some "at://did:ex:a/app.bsky.feed.post/1"⟩]).feedbackCalls := by
  have := sendInteractions_feedback "did:ex:u"
    [⟨.interactionSeen, some "at://did:ex:a/app.bsky.feed.post/0"⟩,
     ⟨.requestLess, some "at://did:ex:a/app.bsky.feed.post/1"⟩]
    ⟨⟨.interactionSeen, some "at://did:ex:a/app.bsky.feed.post/0"⟩,
      by decide, by decide, by decide⟩
    ⟨.requestLess, some "at://did:ex:a/app.bsky.feed.post/1"⟩
    (by decide) (by decide)
  exact this

/-! ## Explicit more/less feedback (`algos/social-graph.ts`,
`handleInteractionFeedback`) -/

/-- A `user_author_fatigue` row. -/
structure FatigueRow where
  userDid : String
  authorDid : String
  serveCount : ℤ
  lastServedAtMs : ℤ
  fatigueScore : ℚ
  affinityScore : ℚ
  interactionWeight : ℚ
  lastInteractionAtMs : Option ℤ
  interactionCount : ℤ
  updatedAtMs : ℤ
deriving DecidableEq, Repr

/-- A `user_keyword` row. -/
structure KeywordRow where
  userDid : String
  keyword : String
  score : ℚ
  updatedAtMs : ℤ
deriving DecidableEq, Repr

/-- The store slice read and written by the feedback handler. -/
structure FeedbackStore where
  posts : List Post
  fatigue : List FatigueRow
  keywords : List KeywordRow
  reps : List TasteRepRow
  interactions : List InteractionRow

/-- Modelled from the spec: `getPostLikers(postUri, limit)` of the graph
service lives in `services/graph-builder.ts`, which is not among the sources
at hand (only its caller is); per the spec it is an external-API call that
returns the DIDs of the actors who liked the post and tolerates failure by
returning the empty list.  The external response is passed in as `extLikers`
and the `limit` argument caps it. -/
def getPostLikers (extLikers : List String) (limit : ℕ) : List String :=
  extLikers.take limit

/-- The restricted keywords excluded from feedback adjustment. -/
def restrictedKeywords : List String :=
  ["adult", "porn", "nsfw", "pornography", "xxx", "hentai", "furry"]

/-- JS `word.replace(/[^\w]/g, '')`: keep only `[A-Za-z0-9_]`. -/
def wordChars (w : String) : String :=
  ⟨w.data.filter (fun c => c.isAlphanum || c = '_')⟩

/-- Clamp a keyword score into [−1, 1]
(`Math.min(1.0, Math.max(-1.0, score + adjustment))`). -/
def kwClamp (x : ℚ) : ℚ := jsMinQ 1.0 (jsMaxQ (-1.0) x)

/-- The per-word keyword adjustment loop of the feedback handler. -/
def adjustKeywords (rows : List KeywordRow) (u : String) (text : String)
    (adjustment : ℚ) (nowMs : ℤ) : List KeywordRow :=
  let words := (text.toLower.split (fun c => c.isWhitespace)).filter
    (fun w => w.length > 4)
  words.foldl
    (fun acc word =>
      let cleanWord := wordChars word
      if cleanWord.length < 4 || restrictedKeywords.contains cleanWord then acc
      else
        match acc.find? (fun r => r.userDid == u && r.keyword == cleanWord) with
        | some _ =>
          acc.map (fun r =>
            if r.userDid == u && r.keyword == cleanWord then
              { r with score := kwClamp (r.score + adjustment), updatedAtMs := nowMs }
            else r)
        | none => acc ++ [⟨u, cleanWord, adjustment, nowMs⟩])
    rows

/-- `handleInteractionFeedback(ctx, userDid, postUri, type, strength)`:
adjust author affinity/fatigue, keyword scores, and the taste reputation of
the post likers fetched externally (cap 50) with indexed likers as fallback. -/
noncomputable def handleInteractionFeedback (st : FeedbackStore)
    (u postUri : String) (ftype : FType) (strength : FStrength)
    (extLikers : List String) (nowMs : ℤ) : FeedbackStore :=
  match st.posts.find? (fun p => p.uri == postUri) with
  | none => st
  | some post =>
    let affinityAdj : ℚ := if strength = .strong then 5.0 else 1.0
    let fatigueAdj : ℚ := if strength = .strong then 60 else 20
    let keywordAdj : ℚ := if strength = .strong then 0.7 else 0.2
    let finalAffinityAdj := if ftype = .more then affinityAdj else -affinityAdj
    let finalFatigueAdj := if ftype = .more then -fatigueAdj else fatigueAdj
    let fatigue1 := st.fatigue.map (fun r =>
      if r.userDid == u && r.authorDid == post.author then
        { r with affinityScore := r.affinityScore + finalAffinityAdj
                 fatigueScore := r.fatigueScore + finalFatigueAdj
                 updatedAtMs := nowMs }
      else r)
    let keywords1 :=
      match post.text with
      | some t =>
        adjustKeywords st.keywords u t
          (if ftype = .more then keywordAdj else -keywordAdj) nowMs
      | none => st.keywords
    let likerDids0 := getPostLikers extLikers 50
    let likerDids :=
      if likerDids0.isEmpty then
        ((st.interactions.filter (fun i => i.target == postUri &&
          i.itype == .like)).map (fun i => i.actor))
      else likerDids0
    let action : RepAction :=
      match strength, ftype with
      | .strong, .more => .explicit_more
      | .strong, .less => .explicit_less
      | .weak, .more => .served_liked
      | .weak, .less => .served_ignored
    let reps1 := likerDids.foldl
      (fun rows did =>
        if did == u then rows else updateTasteReputation rows u did action nowMs)
      st.reps
    { st with fatigue := fatigue1, keywords := keywords1, reps := reps1 }

/-- Row lookup in `user_author_fatigue` by (user, author). -/
def fatigueOf (rows : List FatigueRow) (u a : String) : Option FatigueRow :=
  rows.find? (fun r => r.userDid == u && r.authorDid == a)

/-- Row lookup in `taste_reputation` by (user, similarUser). -/
def repOf (rows : List TasteRepRow) (u v : String) : Option TasteRepRow :=
  rows.find? (fun r => r.userDid == u && r.similarUserDid == v)

theorem find?_map_pres {α : Type _} (l : List α) (g : α → α) (p : α → Bool)
    (hpres : ∀ a, p (g a) = p a) : (l.map g).find? p = (l.find? p).map g := by
  induction l with
  | nil => rfl
  | cons a l ih =>
    by_cases hp : p a = true
    · rw [List.map_cons, List.find?_cons_of_pos _ (by rw [hpres]; exact hp),
        List.find?_cons_of_pos _ hp]
      rfl
    · rw [List.map_cons,
        List.find?_cons_of_neg _ (by rw [hpres]; simpa using hp),
        List.find?_cons_of_neg _ (by simpa using hp), ih]

theorem repStep_userDid (r : TasteRepRow) (a : RepAction) (n : ℤ) :
    (repStep r a n).userDid = r.userDid := by cases a <;> rfl

theorem repStep_similarUserDid (r : TasteRepRow) (a : RepAction) (n : ℤ) :
    (repStep r a n).similarUserDid = r.similarUserDid := by cases a <;> rfl

theorem repOf_update_hit {rows : List TasteRepRow} {u v : String}
    {r : TasteRepRow} (hr : repOf rows u v = some r)
    (a : RepAction) (n : ℤ) :
    repOf (updateTasteReputation rows u v a n) u v = some (repStep r a n) := by
  have hr' : rows.find? (fun q => q.userDid == u && q.similarUserDid == v) = some r := hr
  have hmem : r ∈ rows := List.mem_of_find?_eq_some hr'
  have hpr := List.find?_some hr'
  have hany : rows.any (fun q => q.userDid == u && q.similarUserDid == v) = true :=
    List.any_eq_true.mpr ⟨r, hmem, hpr⟩
  rw [updateTasteReputation, if_pos hany, repOf,
    find?_map_pres _ _ _ (fun q => by
      by_cases h : (q.userDid == u && q.similarUserDid == v) = true
      · rw [if_pos h, h]
        simp only [repStep_userDid, repStep_similarUserDid]
        exact h
      · rw [if_neg h]), hr', Option.map_some']
  simp only [hpr, if_true]

theorem repOf_update_miss {rows : List TasteRepRow} {u v w : String}
    (hvw : v ≠ w) (a : RepAction) (n : ℤ) :
    repOf (updateTasteReputation rows u w a n) u v = repOf rows u v := by
  rw [updateTasteReputation]
  by_cases hany : rows.any (fun q => q.userDid == u && q.similarUserDid == w) = true
  · rw [if_pos hany, repOf,
      find?_map_pres _ _ _ (fun q => by
        by_cases h : (q.userDid == u && q.similarUserDid == w) = true
        · rw [if_pos h]
          simp only [repStep_userDid, repStep_similarUserDid]
        · rw [if_neg h]), repOf]
    cases hfind : rows.find? (fun r => r.userDid == u && r.similarUserDid == v) with
    | none => rfl
    | some r =>
      have hpr := List.find?_some hfind
      have hfalse : (r.userDid == u && r.similarUserDid == w) = false := by
        simp only [Bool.and_eq_true, beq_iff_eq] at hpr
        simp only [Bool.and_eq_false_iff, beq_eq_false_iff_ne]
        right
        rw [hpr.2]
        exact hvw
      rw [Option.map_some']
      simp only [hfalse, Bool.false_eq_true, if_false]
  · rw [if_neg hany, repOf, repOf]
    cases hfind : rows.find? (fun r => r.userDid == u && r.similarUserDid == v) with
    | none =>
      rw [List.find?_append, hfind]
      simp only [Option.none_or]
      rw [List.find?_cons_of_neg, List.find?_nil]
      simp only [repCreate, Bool.and_eq_true, beq_iff_eq, not_and]
      intro _
      exact hvw.symm
    | some r => rw [List.find?_append, hfind]; rfl

/-- The reputation score after one `explicit_less` step with no elapsed time:
decay is `decayRate ^ 0 = 1`, then ×0.1 with floor 0.001. -/
theorem repStep_explicit_less_score (r : TasteRepRow) :
    (repStep r .explicit_less r.updatedAtMs).reputationScore =
      max 0.001 (r.reputationScore * 0.1) := by
  simp only [repStep]
  norm_num

/-- C4: on a strong `less` feedback (`requestLess`) for a post authored by A
whose external likers are [X, Y], the handler decreases affinity(U,A) by 5.0,
increases fatigue(U,A) by 60, and multiplies reputation(U,X) and
reputation(U,Y) by 0.1 with floor 0.001 (the external post-likers response is
capped at 50 by `getPostLikers`; the reputation rows are assumed fresh, so the
time-decay factor is `decayRate ^ 0 = 1`). -/
theorem feedback_requestLess (st : FeedbackStore) (u postUri X Y : String)
    (nowMs : ℤ) (post : Post)
    (hpost : st.posts.find? (fun p => p.uri == postUri) = some post)
    (f : FatigueRow) (hf : fatigueOf st.fatigue u post.author = some f)
    (rX : TasteRepRow) (hrX : repOf st.reps u X = some rX)
    (hrXt : rX.updatedAtMs = nowMs)
    (rY : TasteRepRow) (hrY : repOf st.reps u Y = some rY)
    (hrYt : rY.updatedAtMs = nowMs)
    (hXu : X ≠ u) (hYu : Y ≠ u) (hXY : X ≠ Y) :
    ((fatigueOf (handleInteractionFeedback st u postUri .less .strong [X, Y]
        nowMs).fatigue u post.author).map
      (fun r => (r.affinityScore, r.fatigueScore)) =
      some (f.affinityScore - 5.0, f.fatigueScore + 60)) ∧
    ((repOf (handleInteractionFeedback st u postUri .less .strong [X, Y]
        nowMs).reps u X).map TasteRepRow.reputationScore =
      some (max 0.001 (rX.reputationScore * 0.1))) ∧
    ((repOf (handleInteractionFeedback st u postUri .less .strong [X, Y]
        nowMs).reps u Y).map TasteRepRow.reputationScore =
      some (max 0.001 (rY.reputationScore * 0.1))) := by
  have hfold :
      (handleInteractionFeedback st u postUri .less .strong [X, Y] nowMs).reps =
      updateTasteReputation
        (updateTasteReputation st.reps u X .explicit_less nowMs)
        u Y .explicit_less nowMs := by
    simp only [handleInteractionFeedback, hpost, getPostLikers]
    simp [List.foldl, hXu, hYu]
  have hfat :
      (handleInteractionFeedback st u postUri .less .strong [X, Y] nowMs).fatigue =
      st.fatigue.map (fun r =>
        if r.userDid == u && r.authorDid == post.author then
          { r with affinityScore := r.affinityScore + -(5.0 : ℚ)
                   fatigueScore := r.fatigueScore + (60 : ℚ)
                   updatedAtMs := nowMs }
        else r) := by
    simp only [handleInteractionFeedback, hpost]
    norm_num
    intro a _
    by_cases h : a.userDid = u ∧ a.authorDid = post.author <;> simp [h]
  refine ⟨?_, ?_, ?_⟩
  · rw [hfat, fatigueOf,
      find?_map_pres _ _ _ (fun q => by
        by_cases h : (q.userDid == u && q.authorDid == post.author) = true
        · rw [if_pos h, h]
        · rw [if_neg h])]
    have hf' : st.fatigue.find? (fun q => q.userDid == u && q.authorDid == post.author) = some f := hf
    have hpf := List.find?_some hf'
    rw [hf', Option.map_some']
    simp only [hpf, if_true, Option.map_some', Option.some_inj, Prod.mk.injEq]
    exact ⟨by ring, trivial⟩
  · rw [hfold, repOf_update_miss hXY, repOf_update_hit hrX]
    show some _ = some _
    rw [show (repStep rX .explicit_less nowMs) = repStep rX .explicit_less rX.updatedAtMs by rw [hrXt],
      repStep_explicit_less_score]
  · have hrY2 : repOf (updateTasteReputation st.reps u X .explicit_less nowMs)
        u Y = some rY := by
      rw [repOf_update_miss hXY.symm]; exact hrY
    rw [hfold, repOf_update_hit hrY2]
    show some _ = some _
    rw [show (repStep rY .explicit_less nowMs) = repStep rY .explicit_less rY.updatedAtMs by rw [hrYt],
      repStep_explicit_less_score]

/-- The concrete post used by the C4 witness. -/
def c4Post : Post :=
  { uri := "at://did:ex:a/app.bsky.feed.post/1", cid := "c", author := "did:ex:a"
    indexedAtMs := 0, likeCount := 0, replyCount := 0, repostCount := 0
    replyRoot := none, replyParent := none, text := none
    hasImage := false, hasVideo := false, hasExternal := false }

/-- The concrete fatigue row used by the C4 witness. -/
def c4FatRow : FatigueRow :=
  { userDid := "did:ex:u", authorDid := "did:ex:a", serveCount := 0
    lastServedAtMs := 0, fatigueScore := 10, affinityScore := 2
    interactionWeight := 0, lastInteractionAtMs := none, interactionCount := 0
    updatedAtMs := 0 }

/-- The concrete reputation rows used by the C4 witness. -/
def c4RepX : TasteRepRow :=
  { userDid := "did:ex:u", similarUserDid := "did:ex:x", reputationScore := 2
    agreementHistory := 0, lastSeenAtMs := 0, decayRate := 0.95, updatedAtMs := 0 }

/-- Second reputation row of the C4 witness. -/
def c4RepY : TasteRepRow :=
  { userDid := "did:ex:u", similarUserDid := "did:ex:y", reputationScore := 0.004
    agreementHistory := 0, lastSeenAtMs := 0, decayRate := 0.95, updatedAtMs := 0 }

/-- The concrete feedback store of the C4 witness. -/
def c4Store : FeedbackStore :=
  { posts := [c4Post], fatigue := [c4FatRow], keywords := []
    reps := [c4RepX, c4RepY], interactions := [] }

/-- Witness for C4 at a concrete store: user u, post authored by a with
external likers x and y, fatigue (affinity 2, fatigue 10), reputations 2 and
0.004 (the latter exercising the 0.001 floor). -/
theorem feedback_requestLess_witness :
    ((fatigueOf (handleInteractionFeedback c4Store "did:ex:u"
        "at://did:ex:a/app.bsky.feed.post/1" .less .strong
        ["did:ex:x", "did:ex:y"] 0).fatigue "did:ex:u" c4Post.author).map
      (fun r => (r.affinityScore, r.fatigueScore)) =
      some (c4FatRow.affinityScore - 5.0, c4FatRow.fatigueScore + 60)) ∧
    ((repOf (handleInteractionFeedback c4Store "did:ex:u"
        "at://did:ex:a/app.bsky.feed.post/1" .less .strong
        ["did:ex:x", "did:ex:y"] 0).reps "did:ex:u" "did:ex:x").map
      TasteRepRow.reputationScore =
      some (max 0.001 (c4RepX.reputationScore * 0.1))) ∧
    ((repOf (handleInteractionFeedback c4Store "did:ex:u"
        "at://did:ex:a/app.bsky.feed.post/1" .less .strong
        ["did:ex:x", "did:ex:y"] 0).reps "did:ex:u" "did:ex:y").map
      TasteRepRow.reputationScore =
      some (max 0.001 (c4RepY.reputationScore * 0.1))) := by
  exact feedback_requestLess c4Store "did:ex:u"
    "at://did:ex:a/app.bsky.feed.post/1" "did:ex:x" "did:ex:y" 0 c4Post
    (by rfl) c4FatRow (by rfl) c4RepX (by rfl) (by rfl) c4RepY (by rfl) (by rfl)
    (by decide) (by decide) (by decide)

/-! ## Serve-time fusion (`methods/feed-generation.ts`,
`serveFromBatchesOrFallback`, candidate-batch scoring) -/

/-- A `user_seen_post` row. -/
structure SeenRow where
  userDid : String
  uri : String
  seenAtMs : ℤ
deriving DecidableEq, Repr

/-- A `user_candidate_batch` row. -/
structure BatchRow where
  userDid : String
  uri : String
  semanticScore : ℚ
  pipelineScore : ℚ
  centroidId : ℤ
  batchId : String
  generatedAtMs : ℤ
deriving DecidableEq, Repr

/-- The store slice read by the fusion path. -/
structure FusionStore where
  batches : List BatchRow
  interactions : List InteractionRow
  seen : List SeenRow
  fatigue : List FatigueRow
deriving DecidableEq, Repr

/-- Non-expired candidate-batch rows for the user (12 h TTL). -/
def batchRowsOf (st : FusionStore) (u : String) (nowMs : ℤ) : List BatchRow :=
  st.batches.filter (fun r => r.userDid == u &&
    decide (r.generatedAtMs > nowMs - 12 * 3600000))

/-- Per-URI deduplication keeping the row with the strictly newest
`generatedAt` (`if (!map[uri] || row.generatedAt > map[uri].generatedAt)`),
in first-occurrence key order. -/
def dedupBatchRows (rows : List BatchRow) : List BatchRow :=
  rows.foldl
    (fun acc row =>
      match acc.find? (fun q => q.uri == row.uri) with
      | none => acc ++ [row]
      | some q =>
        if row.generatedAtMs > q.generatedAtMs then
          acc.map (fun x => if x.uri == row.uri then row else x)
        else acc)
    []

/-- `impactMultiplier = max(0, 1 − batchAgeHours / 12)`. -/
def impactMultiplierOf (nowMs genAtMs : ℤ) : ℚ :=
  jsMaxQ 0 (1 - ((nowMs - genAtMs : ℤ) : ℚ) / (1000 * 60 * 60) / 12)

/-- `effectiveScore = pipelineScore · 0.3 + semanticScore · 1800 · impact`. -/
def fusionEffective (row : BatchRow) (nowMs : ℤ) : ℚ :=
  row.pipelineScore * 0.3 +
    row.semanticScore * 1800 * impactMultiplierOf nowMs row.generatedAtMs

/-- A decayed fusion candidate. -/
structure FusionCand where
  uri : String
  effectiveScore : ℚ
  semanticScore : ℚ
  pipelineScore : ℚ
  centroidId : ℤ
  batchId : String
  impactMultiplier : ℚ
deriving DecidableEq, Repr

/-- The `decayed` list: per-candidate effective score and impact multiplier. -/
def decayedOf (nowMs : ℤ) (rows : List BatchRow) : List FusionCand :=
  rows.map (fun row =>
    { uri := row.uri
      effectiveScore := fusionEffective row nowMs
      semanticScore := row.semanticScore
      pipelineScore := row.pipelineScore
      centroidId := row.centroidId
      batchId := row.batchId
      impactMultiplier := impactMultiplierOf nowMs row.generatedAtMs })

/-- URIs the user has already liked / reposted / replied to. -/
def likedUrisOf (st : FusionStore) (u : String) : List String :=
  (st.interactions.filter (fun i => i.actor == u &&
    (i.itype == .like || i.itype == .repost || i.itype == .reply))).map
    (fun i => i.target)

/-- Number of 7-day seen-log entries of the user for a URI. -/
def seenCount7d (st : FusionStore) (u : String) (nowMs : ℤ) (uri : String) : ℕ :=
  ((st.seen.filter (fun r => r.userDid == u &&
    decide (r.seenAtMs > nowMs - 7 * 24 * 3600000))).filter
    (fun r => r.uri == uri)).length

/-- `authorFatigueMap[author] || 0` (the forEach assignment keeps the last
row per author). -/
def fusionFatigueOf (st : FusionStore) (u author : String) : ℚ :=
  (((st.fatigue.filter (fun r => r.userDid == u)).filter
    (fun r => r.authorDid == author)).getLast?.map
    (fun r => r.fatigueScore)).getD 0

/-- `extractAuthor`: `uri.replace('at://', '').split('/')[0] || ''`. -/
def extractAuthor (uri : String) : String :=
  (((replaceFirst uri "at://" "").splitOn "/").head?).getD ""

/-- The seen-log score adjustment: hard `−501` from the third view on,
multiplicative `· 0.2^seenCount` for one or two views, untouched otherwise. -/
def seenAdjust (eff : ℚ) (seenCount : ℕ) : ℚ :=
  if seenCount > 0 then
    (if seenCount ≥ 3 then -501 else eff * (0.2 : ℚ) ^ seenCount)
  else eff

/-- A fusion candidate with its real-time adjusted score. -/
structure AdjCand where
  cand : FusionCand
  author : String
  adjustedScore : ℚ
deriving DecidableEq, Repr

/-- The real-time filter chain: drop liked and zero-impact candidates, apply
the seen-log adjustment and the author-fatigue subtraction, then keep scores
above −500. -/
def fusionFiltered (st : FusionStore) (u : String) (nowMs : ℤ) : List AdjCand :=
  let decayed := decayedOf nowMs (dedupBatchRows (batchRowsOf st u nowMs))
  let liked := likedUrisOf st u
  ((decayed.filter (fun c => !(liked.contains c.uri) &&
      decide (c.impactMultiplier > 0))).map
    (fun c =>
      let author := extractAuthor c.uri
      let adjusted1 := seenAdjust c.effectiveScore (seenCount7d st u nowMs c.uri)
      let fs := fusionFatigueOf st u author
      let adjusted2 := if fs > 0 then adjusted1 - fs / 100 * 1200 else adjusted1
      { cand := c, author := author, adjustedScore := adjusted2 })).filter
    (fun c => decide (c.adjustedScore > -500))

/-- Sort by adjusted score descending. -/
def fusionSorted (st : FusionStore) (u : String) (nowMs : ℤ) : List AdjCand :=
  jsSort (fun a b => decide (a.adjustedScore > b.adjustedScore))
    (fusionFiltered st u nowMs)

/-- The account-diversity pass: skip a candidate whose author occupies one of
the last two slots. -/
def fusionDiversified (st : FusionStore) (u : String) (nowMs : ℤ) :
    List AdjCand :=
  ((fusionSorted st u nowMs).foldl
    (fun (acc : List AdjCand × List String) c =>
      if (acc.2.drop (acc.2.length - 2)).contains c.author then acc
      else (acc.1 ++ [c], acc.2 ++ [c.author]))
    ([], [])).1

theorem seenAdjust_exclusion {st : FusionStore} {u : String} {nowMs : ℤ}
    {c : AdjCand} (hc : c ∈ fusionFiltered st u nowMs) :
    ¬ 3 ≤ seenCount7d st u nowMs c.cand.uri := by
  intro h3
  rw [fusionFiltered] at hc
  simp only [List.mem_filter, List.mem_map] at hc
  obtain ⟨⟨b, hb, hbc⟩, hpos⟩ := hc
  subst hbc
  simp only [decide_eq_true_eq] at hpos h3 ⊢
  have hseen : seenAdjust b.effectiveScore (seenCount7d st u nowMs b.uri) = -501 := by
    rw [seenAdjust, if_pos (by omega), if_pos (by simpa using h3)]
  simp only [hseen] at hpos
  by_cases hfs : fusionFatigueOf st u (extractAuthor b.uri) > 0
  · rw [if_pos hfs] at hpos
    nlinarith
  · rw [if_neg hfs] at hpos
    norm_num at hpos

/-- C8: on the serve-time fusion path, every deduplicated candidate-batch row
is scored `effectiveScore = 0.3·pipelineScore + 1800·semanticScore·impact`
with `impact = max(0, 1 − batchAgeHours/12)`; the seen-log adjustment
multiplies by `0.2^seenCount` for one or two views and hard-sets the score to
−501 from three views on, and a candidate seen three or more times never
survives the real-time filter (nor, a fortiori, the diversity pass). -/
theorem fusion_batch_scoring (st : FusionStore) (u : String) (nowMs : ℤ) :
    (∀ c ∈ decayedOf nowMs (dedupBatchRows (batchRowsOf st u nowMs)),
      c.effectiveScore =
        0.3 * c.pipelineScore + 1800 * c.semanticScore * c.impactMultiplier) ∧
    (∀ eff : ℚ, seenAdjust eff 1 = eff * (1 / 5) ∧
      seenAdjust eff 2 = eff * (1 / 25)) ∧
    (∀ (eff : ℚ) (k : ℕ), 3 ≤ k → seenAdjust eff k = -501) ∧
    (∀ c ∈ fusionFiltered st u nowMs,
      ¬ 3 ≤ seenCount7d st u nowMs c.cand.uri) ∧
    (∀ c ∈ fusionDiversified st u nowMs,
      ¬ 3 ≤ seenCount7d st u nowMs c.cand.uri) := by
  refine ⟨?_, ?_, ?_, fun c hc => seenAdjust_exclusion hc, ?_⟩
  · intro c hc
    rw [decayedOf] at hc
    simp only [List.mem_map] at hc
    obtain ⟨row, _, hrow⟩ := hc
    subst hrow
    simp only [fusionEffective]
    ring
  · intro eff
    constructor <;> (rw [seenAdjust]; norm_num)
  · intro eff k hk
    rw [seenAdjust, if_pos (by omega), if_pos (by simpa using hk)]
  · intro c hc
    have hsub : c ∈ fusionSorted st u nowMs := by
      rw [fusionDiversified] at hc
      have key : ∀ (l : List AdjCand) (acc : List AdjCand × List String),
          (∀ x ∈ acc.1, x ∈ fusionSorted st u nowMs) →
          (∀ x ∈ l, x ∈ fusionSorted st u nowMs) →
          ∀ x ∈ (l.foldl (fun (acc : List AdjCand × List String) c =>
            if (acc.2.drop (acc.2.length - 2)).contains c.author then acc
            else (acc.1 ++ [c], acc.2 ++ [c.author])) acc).1, x ∈ fusionSorted st u nowMs := by
        intro l
        induction l with
        | nil => intro acc hacc _ x hx; exact hacc x hx
        | cons a l ih =>
          intro acc hacc hl x hx
          rw [List.foldl_cons] at hx
          refine ih _ ?_ (fun y hy => hl y (List.mem_cons_of_mem _ hy)) x hx
          by_cases hskip : ((acc.2.drop (acc.2.length - 2)).contains a.author) = true
          · rw [if_pos hskip]; exact hacc
          · rw [if_neg hskip]
            intro y hy
            rcases List.mem_append.mp hy with hy1 | hy2
            · exact hacc y hy1
            · rw [List.mem_singleton] at hy2
              subst hy2
              exact hl y (List.mem_cons_self _ _)
      exact key _ ([], []) (by intro x hx; cases hx) (fun x hx => hx) c hc
    have hmem : c ∈ fusionFiltered st u nowMs := by
      rw [fusionSorted] at hsub
      have perm : ∀ (l : List AdjCand) (x : AdjCand),
          x ∈ jsSort (fun a b => decide (a.adjustedScore > b.adjustedScore)) l → x ∈ l := by
        intro l
        have key : ∀ (l acc : List AdjCand) (x : AdjCand),
            x ∈ l.foldl (fun acc y =>
              insSorted (fun a b => decide (a.adjustedScore > b.adjustedScore)) y acc) acc →
            x ∈ l ∨ x ∈ acc := by
          intro l
          induction l with
          | nil => intro acc x hx; exact Or.inr hx
          | cons a l ih =>
            intro acc x hx
            rw [List.foldl_cons] at hx
            rcases ih _ x hx with h | h
            · exact Or.inl (List.mem_cons_of_mem _ h)
            · have hins : ∀ (y : AdjCand) (m : List AdjCand), x ∈ insSorted
                  (fun a b => decide (a.adjustedScore > b.adjustedScore)) y m →
                  x = y ∨ x ∈ m := by
                intro y m
                induction m with
                | nil =>
                  intro hm
                  rw [insSorted] at hm
                  rcases List.mem_singleton.mp hm with h
                  exact Or.inl h
                | cons b m ihm =>
                  intro hm
                  rw [insSorted] at hm
                  by_cases hlt : (decide (y.adjustedScore > b.adjustedScore)) = true
                  · rw [if_pos hlt] at hm
                    rcases List.mem_cons.mp hm with h | h
                    · exact Or.inl h
                    · exact Or.inr h
                  · rw [if_neg hlt] at hm
                    rcases List.mem_cons.mp hm with h | h
                    · exact Or.inr (h ▸ List.mem_cons_self _ _)
                    · rcases ihm h with h1 | h1
                      · exact Or.inl h1
                      · exact Or.inr (List.mem_cons_of_mem _ h1)
              rcases hins a acc h with h1 | h1
              · exact Or.inl (h1 ▸ List.mem_cons_self _ _)
              · exact Or.inr h1
        intro x hx
        rcases key l [] x hx with h | h
        · exact h
        · cases h
      exact perm _ c hsub
    exact seenAdjust_exclusion hmem

/-- Concrete fusion store for the C8 witness: one fresh batch row
(semantic 0.5, pipeline 100, generated now). -/
def c8Store : FusionStore :=
  { batches := [{ userDid := "did:ex:u"
                  uri := "at://did:ex:a/app.bsky.feed.post/1"
                  semanticScore := 0.5, pipelineScore := 100
                  centroidId := 7, batchId := "b1", generatedAtMs := 0 }]
    interactions := [], seen := [], fatigue := [] }

/-- The decayed candidate produced from the C8 witness store:
`effectiveScore = 0.3·100 + 1800·0.5·1 = 930`. -/
def c8Cand : FusionCand :=
  { uri := "at://did:ex:a/app.bsky.feed.post/1"
    effectiveScore := 930, semanticScore := 0.5, pipelineScore := 100
    centroidId := 7, batchId := "b1", impactMultiplier := 1 }

/-- Witness for C8 at the concrete store: the candidate carries the claimed
effective score, and the seen adjustment evaluates to ×0.2, ×0.04 and −501 at
one, two and three views. -/
theorem fusion_batch_scoring_witness :
    (c8Cand ∈ decayedOf 0 (dedupBatchRows (batchRowsOf c8Store "did:ex:u" 0)) ∧
      c8Cand.effectiveScore =
        0.3 * c8Cand.pipelineScore +
          1800 * c8Cand.semanticScore * c8Cand.impactMultiplier) ∧
    seenAdjust 930 1 = 930 * (1 / 5) ∧
    seenAdjust 930 2 = 930 * (1 / 25) ∧
    seenAdjust 930 3 = -501 := by
  have hmem : c8Cand ∈ decayedOf 0 (dedupBatchRows (batchRowsOf c8Store "did:ex:u" 0)) := by
    rw [show decayedOf 0 (dedupBatchRows (batchRowsOf c8Store "did:ex:u" 0)) = [c8Cand] from by
      norm_num [decayedOf, dedupBatchRows, batchRowsOf, c8Store, c8Cand, fusionEffective,
        impactMultiplierOf, jsMaxQ, List.filter, List.foldl]]
    exact List.mem_singleton.mpr rfl
  exact ⟨⟨hmem, (fusion_batch_scoring c8Store "did:ex:u" 0).1 c8Cand hmem⟩,
    ((fusion_batch_scoring c8Store "did:ex:u" 0).2.1 930).1,
    ((fusion_batch_scoring c8Store "did:ex:u" 0).2.1 930).2,
    (fusion_batch_scoring c8Store "did:ex:u" 0).2.2.1 930 3 (by norm_num)⟩

/-! ## Ranking core (`algos/social-graph.ts`, the exported `handler`)

The store slice the handler reads.  Taste-reputation scores are only read
here (filtered, sorted and summed), so they are kept as exact rationals; the
`taste-similarity.ts` write path above uses the real-valued `TasteRepRow`. -/

/-- A `graph_follow` row. -/
structure FollowRow where
  follower : String
  followee : String
deriving DecidableEq, Repr

/-- A `taste_similarity` row. -/
structure TasteSimRow where
  userDid : String
  similarUserDid : String
  agreementCount : ℤ
  totalCoLikedPosts : ℤ
  lastAgreementAtMs : ℤ
  updatedAtMs : ℤ
deriving DecidableEq, Repr

/-- A `taste_reputation` row as read by the ranking core. -/
structure RankRepRow where
  userDid : String
  similarUserDid : String
  reputationScore : ℚ
deriving DecidableEq, Repr

/-- A `user_influential_l2` cache row. -/
structure InflRow where
  userDid : String
  l2Did : String
  influenceScore : ℚ
  l1FollowerCount : ℤ
  updatedAtMs : ℤ
deriving DecidableEq, Repr

/-- The relational state read by one `handler` invocation. -/
structure RankStore where
  posts : List Post
  follows : List FollowRow
  interactions : List InteractionRow
  seen : List SeenRow
  keywords : List KeywordRow
  fatigue : List FatigueRow
  tasteSim : List TasteSimRow
  tasteRep : List RankRepRow
  infl : List InflRow
deriving DecidableEq, Repr

/-- One invocation context: store snapshot, wall clock, requester and mode.
The handler also writes (influential-L2 cache, taste-reputation nudges from
recent interactions, debug logs); none of those writes feed back into the
response of the same call, so the model is the pure response function. -/
structure RankCtx where
  store : RankStore
  nowMs : ℤ
  requesterDid : String
  batchMode : Bool

/-- Layer 1: the accounts the requester follows. -/
def layer1 (ctx : RankCtx) : List String :=
  (ctx.store.follows.filter
    (fun f => f.follower == ctx.requesterDid)).map (fun f => f.followee)

/-- Layer 2: the accounts followed by Layer 1. -/
def layer2 (ctx : RankCtx) : List String :=
  (ctx.store.follows.filter
    (fun f => memOrDummy (layer1 ctx) f.follower)).map (fun f => f.followee)

/-- Mutuals: Layer-1 accounts that follow the requester back. -/
def mutuals (ctx : RankCtx) : List String :=
  (ctx.store.follows.filter (fun f => f.followee == ctx.requesterDid &&
    memOrDummy (layer1 ctx) f.follower)).map (fun f => f.follower)

/-- The computable half of the influential-L2 refresh: per Layer-2 candidate
its Layer-1 follower count (groups in first-occurrence order, `HAVING ≥ 2`)
and its total follower count. -/
def inflPairs (ctx : RankCtx) : List (String × ℤ × ℤ) :=
  let l1rows := ctx.store.follows.filter (fun f => memOrDummy (layer1 ctx) f.follower)
  let grouped : List (String × ℤ) := l1rows.foldl
    (fun acc f =>
      if acc.any (fun p => p.1 == f.followee) then
        acc.map (fun p => if p.1 == f.followee then (p.1, p.2 + 1) else p)
      else acc ++ [(f.followee, 1)])
    []
  (grouped.filter (fun p => decide (p.2 ≥ 2))).map (fun p =>
    (p.1, p.2, ((ctx.store.follows.filter (fun f => f.followee == p.1)).length : ℤ)))

/-- `influence = (l1Count / √totalFollowers) · l1Count` (falling back to a
total of 1 when the totals query returned no row, which cannot happen here
because every grouped followee has at least its own rows). -/
noncomputable def influenceScoreOf (p : String × ℤ × ℤ) : ℝ :=
  let total : ℝ := if p.2.2 = 0 then 1 else (p.2.2 : ℝ)
  ((p.2.1 : ℝ) / Real.sqrt total) * (p.2.1 : ℝ)

/-- The influential-L2 DIDs used by the network-effort query: the cache when
fresh (72 h), otherwise the top 100 recomputed scores. -/
noncomputable def influentialL2Dids (ctx : RankCtx) : List String :=
  let cached := ctx.store.infl.filter (fun r => r.userDid == ctx.requesterDid)
  let cachedAt : ℤ := ((cached.head?.map (fun r => r.updatedAtMs)).getD 0)
  if cached.isEmpty || decide (ctx.nowMs - cachedAt > 72 * 3600000) then
    ((jsSort (fun a b => decide (influenceScoreOf a > influenceScoreOf b))
      (inflPairs ctx)).take 100).map (fun p => p.1)
  else
    cached.map (fun r => r.l2Did)

/-- Layer 0, the interacted-author scope: the first 100 unique author DIDs of
the requester's 200 most recent interactions. -/
def interactedDids (ctx : RankCtx) : List String :=
  let personal := (jsSort (fun a b => decide (a.indexedAtMs > b.indexedAtMs))
    (ctx.store.interactions.filter
      (fun i => i.actor == ctx.requesterDid))).take 200
  personal.foldl
    (fun acc i =>
      if acc.length ≥ 100 then acc
      else
        match authorOfUri i.target with
        | some d => if acc.contains d then acc else acc ++ [d]
        | none => acc)
    []

/-- Seen-log rows of the last 6 hours for the requester. -/
def seenRecent (ctx : RankCtx) : List SeenRow :=
  ctx.store.seen.filter (fun r => r.userDid == ctx.requesterDid &&
    decide (r.seenAtMs > ctx.nowMs - 6 * 3600000))

/-- `seenCountMap[uri]`. -/
def seenCountOf (ctx : RankCtx) (uri : String) : ℕ :=
  ((seenRecent ctx).filter (fun r => r.uri == uri)).length

/-- `seenTimeMap[uri]` (the forEach assignment keeps the last row). -/
def lastSeenOf (ctx : RankCtx) (uri : String) : Option ℤ :=
  (((seenRecent ctx).filter (fun r => r.uri == uri)).getLast?).map
    (fun r => r.seenAtMs)

/-- The requester's like/repost/reply rows. -/
def userInteractions (ctx : RankCtx) : List InteractionRow :=
  ctx.store.interactions.filter (fun i => i.actor == ctx.requesterDid &&
    (i.itype == .like || i.itype == .repost || i.itype == .reply))

/-- `userInteractionMap[uri]`: the forEach assignment keeps the type of the
last interaction row whose target is the URI. -/
def userInteractionOf (ctx : RankCtx) (uri : String) : Option IType :=
  (((userInteractions ctx).filter (fun i => i.target == uri)).getLast?).map
    (fun i => i.itype)

/-- `getTasteSimilarUsers(ctx, requester, 100)`: reputation rows above 0.5,
sorted by score descending, capped at 100, left-joined with the similarity
table for `agreementCount ?? 1`. -/
def tasteSimilarUsers (ctx : RankCtx) : List (String × ℚ × ℤ) :=
  ((jsSort (fun a b => decide (a.reputationScore > b.reputationScore))
    (ctx.store.tasteRep.filter (fun r => r.userDid == ctx.requesterDid &&
      decide (r.reputationScore > 0.5)))).take 100).map
    (fun r =>
      (r.similarUserDid, r.reputationScore,
        ((ctx.store.tasteSim.find? (fun s => s.userDid == ctx.requesterDid &&
          s.similarUserDid == r.similarUserDid)).map
          (fun s => s.agreementCount)).getD 1))

/-- `getPostsLikedBySimilarUsers` (72 h window): per post URI the summed
reputation of the similar users who liked it and the list of those users, in
first-encounter order, sorted by boost score descending. -/
def tasteSimilarPosts (ctx : RankCtx) : List (String × ℚ × List String) :=
  let sims := tasteSimilarUsers ctx
  if sims.isEmpty then []
  else
    let likes := ctx.store.interactions.filter (fun i => i.itype == .like &&
      (sims.map (fun s => s.1)).contains i.actor &&
      decide (i.indexedAtMs > ctx.nowMs - 72 * 3600000))
    let grouped : List (String × ℚ × List String) := likes.foldl
      (fun acc i =>
        match sims.find? (fun s => s.1 == i.actor) with
        | none => acc
        | some sim =>
          if acc.any (fun p => p.1 == i.target) then
            acc.map (fun p =>
              if p.1 == i.target then (p.1, p.2.1 + sim.2.1, p.2.2 ++ [i.actor])
              else p)
          else acc ++ [(i.target, sim.2.1, [i.actor])])
      []
    jsSort (fun a b => decide (a.2.1 > b.2.1)) grouped

/-- `tasteSimilarPostMap` lookup. -/
def tasteDataOf (ctx : RankCtx) (uri : String) : Option (ℚ × List String) :=
  ((tasteSimilarPosts ctx).find? (fun p => p.1 == uri)).map (fun p => p.2)

/-- Media-preference ratios over the 100 most recent likes that join to an
indexed post (defaults 0.25 with no likes). -/
def mediaRatios (ctx : RankCtx) : ℚ × ℚ :=
  let joined := ctx.store.interactions.filter
    (fun i => i.actor == ctx.requesterDid && i.itype == .like &&
      ctx.store.posts.any (fun p => p.uri == i.target))
  let recent := ((jsSort (fun a b => decide (a.indexedAtMs > b.indexedAtMs))
    joined).take 100).map
    (fun i => (ctx.store.posts.find? (fun p => p.uri == i.target)).getD
      { uri := "", cid := "", author := "", indexedAtMs := 0, likeCount := 0
        replyCount := 0, repostCount := 0, replyRoot := none
        replyParent := none, text := none, hasImage := false
        hasVideo := false, hasExternal := false })
  if recent.isEmpty then (0.25, 0.25)
  else
    (((recent.filter (fun p => p.hasImage)).length : ℚ) / (recent.length : ℚ),
     ((recent.filter (fun p => p.hasVideo)).length : ℚ) / (recent.length : ℚ))

/-- `userSeed`: the character-code sum of the requester DID. -/
def userSeedOf (u : String) : ℤ :=
  u.data.foldl (fun a c => a + c.toNat) 0

/-- The three pseudo-random bucket coefficients derived from a seed. -/
def bucketFactors (seed : ℤ) : ℚ × ℚ × ℚ :=
  ( (((seed * 9301 + 49297).tmod 233280 : ℤ) : ℚ) / 233280,
    (((seed * 233280 + 9301).tmod 49297 : ℤ) : ℚ) / 49297,
    (((seed * 49297 + 233280).tmod 9301 : ℤ) : ℚ) / 9301 )

/-- The light pre-score of one harvested post
(`likeScore + timeScore + velocityScore` with per-bucket coefficients). -/
def bucketPre (nowMs : ℤ) (p : Post) (f : ℚ × ℚ × ℚ)
    (base range timeNum velMul : ℚ) : ℚ :=
  let ageInHours : ℚ := ((nowMs - p.indexedAtMs : ℤ) : ℚ) / (1000 * 60 * 60)
  let likes : ℚ := (p.likeCount : ℚ)
  let velocity := if ageInHours > 0 then likes / ageInHours else likes
  likes * (base + f.1 * range) + (timeNum / (ageInHours + 1)) * (base + f.2.1 * range) +
    velocity * velMul * (base + f.2.2 * range)

/-- Top-k of a raw bucket by pre-score (descending, stable). -/
def bucketTop (nowMs : ℤ) (raw : List Post) (seed : ℤ)
    (base range timeNum velMul : ℚ) (k : ℕ) : List Post :=
  ((jsSort (fun a b => decide (a.2 > b.2))
    (raw.map (fun p =>
      (p, bucketPre nowMs p (bucketFactors seed) base range timeNum velMul)))).take k).map
    (fun x => x.1)

/-- Bucket B1: fresh activity (72 h), social graph or engagement threshold. -/
def bucket1 (ctx : RankCtx) : List Post :=
  let raw := (ctx.store.posts.filter (fun p =>
    decide (p.indexedAtMs > ctx.nowMs - 72 * 3600000) &&
    (memOrDummy (layer1 ctx) p.author || memOrDummy (layer2 ctx) p.author ||
      memOrDummy (interactedDids ctx) p.author ||
      decide (p.likeCount > (if ctx.batchMode then 0 else 2))))).take
    (if ctx.batchMode then 3000 else 1200)
  bucketTop ctx.nowMs raw ((ctx.nowMs + userSeedOf ctx.requesterDid).tmod 1000)
    0.5 1.5 1000 50 1200

/-- Bucket B1.5: bridge activity (3–7 days, `likeCount > 1`). -/
def bucket1_5 (ctx : RankCtx) : List Post :=
  let raw := (ctx.store.posts.filter (fun p =>
    decide (p.indexedAtMs > ctx.nowMs - 7 * 24 * 3600000) &&
    decide (p.indexedAtMs ≤ ctx.nowMs - 72 * 3600000) &&
    (memOrDummy (layer1 ctx) p.author || memOrDummy (layer2 ctx) p.author ||
      memOrDummy (interactedDids ctx) p.author ||
      decide (p.likeCount > 1)))).take 600
  bucketTop ctx.nowMs raw ((ctx.nowMs + 500).tmod 1000) 0.4 1.8 700 35 600

/-- Bucket B2: global gems (30 days) merged with the taste-similar URIs. -/
def bucket2 (ctx : RankCtx) : List Post :=
  let globalGems := (ctx.store.posts.filter (fun p =>
    decide (p.indexedAtMs > ctx.nowMs - 30 * 24 * 3600000) &&
    decide (p.likeCount > (if ctx.batchMode then 0 else 1)))).take
    (if ctx.batchMode then 5000 else 1000)
  let tasteUris := ((tasteSimilarPosts ctx).map (fun p => p.1)).take 2000
  let tasteRaw :=
    if tasteUris.isEmpty then []
    else (ctx.store.posts.filter (fun p => tasteUris.contains p.uri)).take 2000
  bucketTop ctx.nowMs (globalGems ++ tasteRaw) ((ctx.nowMs + 1000).tmod 1000)
    0.3 2.4 500 30 (if ctx.batchMode then 3000 else 1600)

/-- Bucket B3: bubble highlights (30 days, closest circle). -/
def bucket3 (ctx : RankCtx) : List Post :=
  let raw := (ctx.store.posts.filter (fun p =>
    decide (p.indexedAtMs > ctx.nowMs - 30 * 24 * 3600000) &&
    (memOrDummy (layer1 ctx) p.author ||
      memOrDummy (interactedDids ctx) p.author))).take 800
  bucketTop ctx.nowMs raw ((ctx.nowMs + 2000).tmod 1000) 0.6 1.2 800 40 800

/-- Merge of the four buckets, deduplicated per URI in first-occurrence
order (a JS `Map` keyed by URI over identical row objects). -/
def uniquePosts (ctx : RankCtx) : List Post :=
  (bucket1 ctx ++ bucket1_5 ctx ++ bucket2 ctx ++ bucket3 ctx).foldl
    (fun acc p => if acc.any (fun q => q.uri == p.uri) then acc else acc ++ [p])
    []

/-- Aggregated network effort per candidate URI. -/
structure NetworkEffort where
  likes : ℤ
  reposts : ℤ
  actors : List String
  repostUri : Option String
deriving DecidableEq, Repr

/-- `networkEffortMap`: interactions on the candidate URIs by Layer 1 or
influential L2, aggregated per target (first Layer-1 repost URI kept). -/
noncomputable def networkEffortMap (ctx : RankCtx) :
    List (String × NetworkEffort) :=
  let uris := (uniquePosts ctx).map (fun p => p.uri)
  let rows := ctx.store.interactions.filter (fun i =>
    memOrDummy uris i.target &&
    (memOrDummy (layer1 ctx) i.actor ||
      memOrDummy (influentialL2Dids ctx) i.actor))
  rows.foldl
    (fun acc i =>
      let acc' :=
        if acc.any (fun p => p.1 == i.target) then acc
        else acc ++ [(i.target, ⟨0, 0, [], none⟩)]
      acc'.map (fun p =>
        if p.1 == i.target then
          let e := p.2
          let e := if i.itype == .like then { e with likes := e.likes + 1 } else e
          let e :=
            if i.itype == .repost then
              { e with reposts := e.reposts + 1
                       repostUri :=
                         if i.interactionUri.isSome &&
                             (layer1 ctx).contains i.actor &&
                             e.repostUri.isNone then
                           i.interactionUri
                         else e.repostUri }
            else e
          (p.1, { e with actors := addSet e.actors i.actor })
        else p))
    []

/-- `networkEffortMap[uri]`. -/
noncomputable def networkOf (ctx : RankCtx) (uri : String) :
    Option NetworkEffort :=
  ((networkEffortMap ctx).find? (fun p => p.1 == uri)).map (fun p => p.2)

/-- One member of a reply cluster. -/
structure ClusterEntry where
  post : Post
  author : String
  isLayer1 : Bool
  isLayer2 : Bool
  isInteracted : Bool
  isMutual : Bool
deriving DecidableEq, Repr

/-- Self-reply chain bookkeeping per thread root. -/
structure ChainData where
  author : String
  replyCount : ℕ
  chainDepth : ℕ
deriving DecidableEq, Repr

/-- The consecutive self-reply chain depth over the author-filtered,
time-ascending replies (`replyParent` linking to the previous reply). -/
def chainDepthLoop : Option Post → ℕ → ℕ → List ClusterEntry → ℕ
  | _, _, mx, [] => mx
  | prev, cur, mx, e :: rest =>
    let cur' :=
      match prev with
      | none => cur + 1
      | some pp => if e.post.replyParent == some pp.uri then cur + 1 else 1
    chainDepthLoop (some e.post) cur' (if mx ≤ cur' then cur' else mx) rest

/-- The reply-cluster / self-reply-chain builder: one pass over the
candidates, pushing each reply into its root cluster and updating the chain
entry exactly as the source mutation loop does. -/
def buildClusters (ctx : RankCtx) :
    List (String × List ClusterEntry) × List (String × ChainData) :=
  (uniquePosts ctx).foldl
    (fun acc p =>
      match p.replyRoot with
      | none => acc
      | some root =>
        let entry : ClusterEntry :=
          { post := p, author := p.author
            isLayer1 := (layer1 ctx).contains p.author
            isLayer2 := (layer2 ctx).contains p.author
            isInteracted := (interactedDids ctx).contains p.author
            isMutual := (mutuals ctx).contains p.author }
        let clusters :=
          if acc.1.any (fun c => c.1 == root) then
            acc.1.map (fun c => if c.1 == root then (c.1, c.2 ++ [entry]) else c)
          else acc.1 ++ [(root, [entry])]
        let chains :=
          if acc.2.any (fun c => c.1 == root) then acc.2
          else acc.2 ++ [(root, ⟨p.author, 0, 0⟩)]
        let cluster := (((clusters.find? (fun c => c.1 == root)).map
          (fun c => c.2)).getD [])
        let chainEntry := (((chains.find? (fun c => c.1 == root)).map
          (fun c => c.2)).getD ⟨p.author, 0, 0⟩)
        let hasSelfReply := cluster.any
          (fun r => r.author == p.author && r.post.uri != p.uri)
        if hasSelfReply || p.author == chainEntry.author then
          let sortedReplies := jsSort
            (fun a b => decide (a.post.indexedAtMs < b.post.indexedAtMs))
            (cluster.filter (fun r => r.author == p.author))
          let depth := chainDepthLoop none 0 0 sortedReplies
          let chains' := chains.map (fun c =>
            if c.1 == root then
              (c.1, { author := p.author
                      replyCount := chainEntry.replyCount + 1
                      chainDepth := depth })
            else c)
          (clusters, chains')
        else (clusters, chains))
    ([], [])

/-- `replyClusters[root]`. -/
def clusterOf (ctx : RankCtx) (root : String) : List ClusterEntry :=
  ((((buildClusters ctx).1.find? (fun c => c.1 == root)).map
    (fun c => c.2))).getD []

/-- `selfReplyChains[root]`. -/
def chainOf (ctx : RankCtx) (root : String) : Option ChainData :=
  (((buildClusters ctx).2.find? (fun c => c.1 == root))).map (fun c => c.2)

/-- Roots with at least two social-graph replies. -/
def multiPersonReplies (ctx : RankCtx) : List String :=
  ((buildClusters ctx).1.filter (fun c =>
    (c.2.filter (fun r => r.isLayer1 || r.isLayer2 || r.isInteracted)).length ≥ 2)).map
    (fun c => c.1)

/-- `opBoostMap[root]` for multi-person roots:
`150·#L1 + 75·#L2 + 200·#mutual` replies plus the ≥3 / ≥5 bonuses. -/
def opBoostOf (ctx : RankCtx) (root : String) : Option ℤ :=
  (((buildClusters ctx).1.find? (fun c => c.1 == root)).bind (fun c =>
    let social := c.2.filter (fun r => r.isLayer1 || r.isLayer2 || r.isInteracted)
    if social.length ≥ 2 then
      some ((150 * ((social.filter (fun r => r.isLayer1)).length : ℤ) +
        75 * ((social.filter (fun r => r.isLayer2)).length : ℤ) +
        200 * ((social.filter (fun r => r.isMutual)).length : ℤ)) +
        (if social.length ≥ 3 then 300 else 0) +
        (if social.length ≥ 5 then 500 else 0))
    else none))

/-- `keywordMap`: the requester keywords keyed by lowercased keyword, later
rows overwriting earlier values at the first-insertion position. -/
def keywordMapOf (ctx : RankCtx) : List (String × ℚ) :=
  (ctx.store.keywords.filter (fun k => k.userDid == ctx.requesterDid)).foldl
    (fun acc k =>
      let key := k.keyword.toLower
      if acc.any (fun p => p.1 == key) then
        acc.map (fun p => if p.1 == key then (p.1, k.score) else p)
      else acc ++ [(key, k.score)])
    []

/-- `authorFatigueMap[author]` (the forEach assignment keeps the last row). -/
def authorFatigueOf (ctx : RankCtx) (author : String) : Option FatigueRow :=
  ((ctx.store.fatigue.filter (fun r => r.userDid == ctx.requesterDid)).filter
    (fun r => r.authorDid == author)).getLast?

/-- A JS `\w` word character. -/
def isWordChar (c : Char) : Bool := c.isAlphanum || c = '_'

/-- Character-list prefix test (verbatim recursion). -/
def charsPrefix : List Char → List Char → Bool
  | [], _ => true
  | _ :: _, [] => false
  | c :: cs, d :: ds => c == d && charsPrefix cs ds

/-- Occurrence search with word boundaries on both sides, the semantics of
the `\bkeyword\b` regex test for keywords made of word characters (the
source escapes every regex metacharacter, so the keyword is literal). -/
def wholeWordGo (kw : List Char) : List Char → Option Char → Bool
  | l, prev =>
    (((prev.map (fun c => !(isWordChar c))).getD true) &&
      charsPrefix kw l &&
      (((l.drop kw.length).head?.map (fun c => !(isWordChar c))).getD true))
    ||
    (match l with
     | [] => false
     | c :: rest => wholeWordGo kw rest (some c))

/-- Whole-word keyword match against a (lowercased) post text. -/
def keywordMatches (text kw : String) : Bool :=
  wholeWordGo kw.data text.data none

/-- JS `Math.min` on integers, `if`-based for kernel reduction. -/
def jsMinI (a b : ℤ) : ℤ := if a ≤ b then a else b

/-- The post age in hours at scoring time. -/
def ageInHoursOf (ctx : RankCtx) (p : Post) : ℚ :=
  ((ctx.nowMs - p.indexedAtMs : ℤ) : ℚ) / (1000 * 60 * 60)

/-- `authorFatigueMap[post.author]?.affinityScore || 1.0`
(JS `||`: an absent row and a zero affinity both yield 1.0). -/
def authorAffinityOf (ctx : RankCtx) (p : Post) : ℚ :=
  match authorFatigueOf ctx p.author with
  | none => 1.0
  | some r => if r.affinityScore = 0 then 1.0 else r.affinityScore

/-- The keyword-map entries whose whole-word regex matches the lowercased
post text (requires a truthy text and a non-empty keyword map). -/
def matchedKeywords (ctx : RankCtx) (p : Post) : List (String × ℚ) :=
  match p.text with
  | some t =>
    if t != "" && !(keywordMapOf ctx).isEmpty then
      (keywordMapOf ctx).filter (fun kv => keywordMatches t.toLower kv.1)
    else []
  | none => []

/-- Whether any keyword matched. -/
def hasKeywordMatchOf (ctx : RankCtx) (p : Post) : Bool :=
  !(matchedKeywords ctx p).isEmpty

/-- Outside the social graph: neither L1 nor L2 nor interacted. -/
def isOutsideOf (ctx : RankCtx) (p : Post) : Bool :=
  !(layer1 ctx).contains p.author && !(layer2 ctx).contains p.author &&
    !(interactedDids ctx).contains p.author

/-- `discoveryMatch`: a taste hit or a keyword hit. -/
def discoveryMatchOf (ctx : RankCtx) (p : Post) : Bool :=
  (tasteDataOf ctx p.uri).isSome || hasKeywordMatchOf ctx p

/-- The deterministic jitter: hash of `uri + requesterDid` folded into
`[0, jitterRange)`, with the range slashed to 300 for outside-graph posts
without a discovery match. -/
def jitterOf (ctx : RankCtx) (p : Post) : ℤ :=
  let jitterRange : ℤ :=
    if isOutsideOf ctx p && !(discoveryMatchOf ctx p) then 300 else 1200
  ((jsHash (p.uri ++ ctx.requesterDid)).tmod jitterRange + jitterRange).tmod
    jitterRange

/-- The scoring accumulator up to (and including) the already-interacted
penalties — the value of `score` on the line preceding the seen-fatigue
multiplier in the source. -/
noncomputable def preSeenScore (ctx : RankCtx) (p : Post) : ℝ :=
  let ageInHours := ageInHoursOf ctx p
  let recencyBase : ℝ := 10 * (0.5 : ℝ) ^ (((ageInHours : ℝ)) / 24)
  let tierDecay : ℝ := (0.5 : ℝ) ^ (((ageInHours : ℝ)) / 336)
  let isL1 := (layer1 ctx).contains p.author
  let isL2 := (layer2 ctx).contains p.author
  let isInt := (interactedDids ctx).contains p.author
  let isMut := (mutuals ctx).contains p.author
  let affinity := authorAffinityOf ctx p
  let tierBoost : ℝ :=
    if isL1 then
      3000 * tierDecay * (if isMut then 2.5 else 1.0) *
        (((0.8 + affinity * 0.2 : ℚ)) : ℝ)
    else if isInt then 1500 * tierDecay * (((0.8 + affinity * 0.2 : ℚ)) : ℝ)
    else if isL2 then 500 * tierDecay * (((0.9 + affinity * 0.1 : ℚ)) : ℝ)
    else 50 * tierDecay
  let net := networkOf ctx p.uri
  let effortBoost : ℤ :=
    match net with
    | some e => jsRoundR ((((e.likes + e.reposts : ℤ)) : ℝ) ^ (1.5 : ℝ) * 200)
    | none => 0
  let engagement : ℚ := (p.likeCount : ℚ) * 15 + (p.repostCount : ℚ) * 30
  let isOutside := isOutsideOf ctx p
  let taste := tasteDataOf ctx p.uri
  let matched := matchedKeywords ctx p
  let hasKeywordMatch := hasKeywordMatchOf ctx p
  let keywordBoost : ℚ := (matched.map (fun kv => kv.2 *
    (if isOutside then (if ctx.batchMode then 800 else 1200) else 100))).sum
  let tasteBoost : ℚ :=
    match taste with
    | some d => d.1 * 2500 * jsMinQ 4.0 (1 + ((d.2.length : ℚ) - 1) * 0.8)
    | none => 0
  let s1 : ℝ := recencyBase + tierBoost + (effortBoost : ℝ) + ((engagement : ℚ) : ℝ)
  let s2 : ℝ :=
    if isOutside then
      let basePenalty : ℝ :=
        if p.likeCount > 50 then -1500
        else if ctx.batchMode then -2000 else -4000
      let media : ℝ :=
        if (p.hasImage && decide ((mediaRatios ctx).1 < 0.2)) ||
            (p.hasVideo && decide ((mediaRatios ctx).2 < 0.2)) then -1500
        else 0
      s1 + basePenalty + media + (if hasKeywordMatch then ((keywordBoost : ℚ) : ℝ) else 0) +
        (if taste.isSome then ((tasteBoost : ℚ) : ℝ) else 0)
    else s1 + ((keywordBoost : ℚ) : ℝ) + ((tasteBoost : ℚ) : ℝ)
  let s3 : ℝ :=
    if p.replyParent.isNone ∧ 0 < s2 then
      s2 + (jsMinI 300 (jsRoundR (s2 * 0.1)) : ℝ)
    else s2
  let s4 : ℝ :=
    if p.replyParent.isSome then
      match opBoostOf ctx p.uri with
      | some ob => if ob = 0 then s3 else s3 + (jsRoundQ ((ob : ℚ) * 0.3) : ℝ)
      | none => s3
    else s3
  let s5 : ℝ :=
    match p.replyParent with
    | none => s4
    | some rp =>
      let root := p.replyRoot.getD rp
      let isInMulti := (multiPersonReplies ctx).contains root
      let social := (clusterOf ctx root).filter
        (fun r => r.isLayer1 || r.isLayer2 || r.isInteracted)
      let replyEngagement : ℤ := p.likeCount + p.repostCount * 2
      let b2 : ℝ := if isMut then 600 else 0
      let b3 : ℝ :=
        if replyEngagement ≥ 5 then 300
        else if replyEngagement ≥ 2 then 100 else 0
      let b4 : ℝ :=
        if isL1 then 400 else if isInt then 200 else if isL2 then 100 else 0
      let b5 : ℝ :=
        if isInMulti ∧ social.length ≥ 2 then
          (if (social.filter (fun r => r.author == p.author)).length > 0
            then -400 else 0) +
            (-(jsMinI ((social.length : ℤ) * 100) 500) : ℝ)
        else 0
      let b6 : ℝ :=
        match (uniquePosts ctx).find? (fun q => q.uri == rp) with
        | some pp =>
          let parentAge : ℚ := ((ctx.nowMs - pp.indexedAtMs : ℤ) : ℚ) / (1000 * 60 * 60)
          if parentAge > 24 then (((-(jsMinQ (parentAge * 5) 300) : ℚ)) : ℝ)
          else 0
        | none => 0
      let b7 : ℝ :=
        match net with
        | some e =>
          if e.actors.length > 0 then ((e.actors.length : ℕ) : ℝ) * 50 else 0
        | none => 0
      s4 + (-800) + b2 + b3 + b4 + b5 + b6 + b7
  let hasAnyEngagement := p.likeCount > 0 ∨ p.repostCount > 0 ∨ net.isSome
  let s6 := if ¬hasAnyEngagement ∧ ageInHours < 1 then s5 - 500 else s5
  let s7 :=
    if p.replyParent.isNone ∧ ¬isL1 ∧ ¬isL2 ∧ ¬isInt ∧ net.isNone ∧
        ageInHours > 24 then s6 - 1000
    else s6
  match userInteractionOf ctx p.uri with
  | some .like => s7 - 8000
  | some .repost => s7 - 6000
  | some .reply => s7 - 5000
  | none => s7

/-- The author-fatigue contribution added after the seen multiplier.  The
negative-fatigue branch computes a bonus into the local variable but never
adds it to the score (dead assignment), so only the `fatigueScore > 40`
penalty reaches the score. -/
def fatigueAdd (ctx : RankCtx) (p : Post) : ℤ :=
  match authorFatigueOf ctx p.author with
  | none => 0
  | some af =>
    if af.fatigueScore < 0 then 0
    else if af.fatigueScore > 40 then
      let pen0 : ℚ := ((-(jsRoundQ ((af.fatigueScore - 30) * 80)) : ℤ) : ℚ)
      let hs : ℚ :=
        match af.lastInteractionAtMs with
        | some t => ((ctx.nowMs - t : ℤ) : ℚ) / (1000 * 60 * 60)
        | none => 999
      let pen1 := if hs > 72 then pen0 * 1.5 else if hs > 24 then pen0 * 1.2 else pen0
      let eng : ℤ := p.likeCount + p.repostCount * 2
      let pen2 :=
        if eng ≥ 10 then pen1 * 0.3
        else if eng ≥ 5 then pen1 * 0.5
        else if eng ≥ 2 then pen1 * 0.7 else pen1
      jsRoundQ pen2
    else 0

/-- The self-reply-chain penalty added after the seen multiplier. -/
def chainAdd (ctx : RankCtx) (p : Post) : ℤ :=
  match p.replyRoot with
  | none => 0
  | some root =>
    match chainOf ctx root with
    | none => 0
    | some cd =>
      if cd.author == p.author then
        let pen0 : ℤ :=
          if cd.chainDepth ≥ 3 then -2000
          else if cd.chainDepth ≥ 2 then -1000 else 0
        let pen1 : ℤ := pen0 +
          (if cd.replyCount ≥ 5 then -1000
           else if cd.replyCount ≥ 3 then -500 else 0)
        let eng : ℤ := p.likeCount + p.repostCount * 2
        let pen2 : ℚ :=
          if eng ≥ 5 then (pen1 : ℚ) * 0.5
          else if eng ≥ 2 then (pen1 : ℚ) * 0.7 else (pen1 : ℚ)
        if pen2 ≠ 0 then jsRoundQ pen2 else 0
      else 0

/-- The full float score of one candidate: the pre-seen accumulator, the
multiplicative seen-fatigue factor `0.5^seenCount` (skipped in batch mode),
then the additive author-fatigue, self-reply-chain and jitter terms. -/
noncomputable def scoreReal (ctx : RankCtx) (p : Post) : ℝ :=
  let pre := preSeenScore ctx p
  let n := seenCountOf ctx p.uri
  let afterSeen :=
    if 0 < n ∧ (lastSeenOf ctx p.uri).isSome ∧ ¬ctx.batchMode then
      pre * (0.5 : ℝ) ^ n
    else pre
  afterSeen + (fatigueAdd ctx p : ℝ) + (chainAdd ctx p : ℝ) +
    (jitterOf ctx p : ℝ)

/-- The rounded integer score attached to the scored candidate. -/
noncomputable def scorePost (ctx : RankCtx) (p : Post) : ℤ :=
  jsRoundR (scoreReal ctx p)

/-- A scored candidate as it flows through filter, dedup, diversity and
pagination. -/
structure Scored where
  post : Post
  score : ℤ
  repostUri : Option String
deriving DecidableEq, Repr

/-- The scored candidate pool. -/
noncomputable def scoredPosts (ctx : RankCtx) : List Scored :=
  (uniquePosts ctx).map (fun p =>
    { post := p, score := scorePost ctx p
      repostUri := (networkOf ctx p.uri).bind (fun e => e.repostUri) })

/-- First-maximum reduce (`reduce((max, cur) => cur.score > max.score ? cur
: max)`), with a default for the impossible empty case. -/
def firstMax (l : List Scored) (dflt : Scored) : Scored :=
  match l with
  | [] => dflt
  | h :: t => t.foldl (fun mx cur => if cur.score > mx.score then cur else mx) h

/-- The post-scoring filter: the already-liked hard filter, the
zero-engagement/seen hard filter, the original-post score floor and the
tiered reply rules. -/
def filterStage (ctx : RankCtx) (sps : List Scored) : List Scored :=
  sps.filter (fun sp =>
    if userInteractionOf ctx sp.post.uri == some .like then false
    else if (sp.post.likeCount == 0 && sp.post.repostCount == 0) &&
        seenCountOf ctx sp.post.uri ≥ 3 then false
    else if sp.post.replyParent.isNone then decide (sp.score > -5000)
    else
      let rp := sp.post.replyParent.getD ""
      let root := sp.post.replyRoot.getD rp
      let isInMulti := (multiPersonReplies ctx).contains root
      let social := (clusterOf ctx root).filter
        (fun r => r.isLayer1 || r.isLayer2 || r.isInteracted)
      let isL1 := (layer1 ctx).contains sp.post.author
      let isL2 := (layer2 ctx).contains sp.post.author
      let isInt := (interactedDids ctx).contains sp.post.author
      let isMut := (mutuals ctx).contains sp.post.author
      if isMut && decide (sp.post.likeCount + sp.post.repostCount ≥ 1) then
        decide (sp.score > -200)
      else if isL1 &&
          decide (sp.post.likeCount + sp.post.repostCount * 2 ≥ 3) then
        decide (sp.score > -150)
      else if isInMulti && social.length ≥ 3 then
        let clusterReplies := sps.filter (fun s =>
          s.post.replyRoot == some root || s.post.replyParent == some root)
        let highest := firstMax clusterReplies sp
        sp.post.uri == highest.post.uri && decide (sp.score > -100)
      else if isL1 || isL2 || isInt then decide (sp.score > -2000)
      else decide (sp.score > -1000))

/-- Counter-map increment. -/
def bumpN (m : List (String × ℕ)) (k : String) : List (String × ℕ) :=
  if m.any (fun p => p.1 == k) then
    m.map (fun p => if p.1 == k then (p.1, p.2 + 1) else p)
  else m ++ [(k, 1)]

/-- Counter-map lookup. -/
def countOf (m : List (String × ℕ)) (k : String) : ℕ :=
  ((m.find? (fun p => p.1 == k)).map (fun p => p.2)).getD 0

/-- The thread / conversation dedup pass over the score-sorted filtered
pool: at most two originals per thread; replies capped per conversation by
actor relationship. -/
def dedupStage (ctx : RankCtx) (filtered : List Scored) : List Scored :=
  ((jsSort (fun a b => decide (a.score > b.score)) filtered).foldl
    (fun (acc : List Scored × List (String × ℕ) × List (String × ℕ)) sp =>
      let threadKey := sp.post.replyRoot.getD sp.post.uri
      let convKey := sp.post.replyRoot.getD "no_conversation"
      let tc := bumpN acc.2.1 threadKey
      let cc := bumpN acc.2.2 convKey
      let isL1 := (layer1 ctx).contains sp.post.author
      let isL2 := (layer2 ctx).contains sp.post.author
      let isInt := (interactedDids ctx).contains sp.post.author
      let isMut := (mutuals ctx).contains sp.post.author
      let push : Bool :=
        if sp.post.replyParent.isNone then countOf tc threadKey ≤ 2
        else if isMut && countOf cc convKey ≤ 3 then true
        else if isL1 && decide (sp.post.likeCount + sp.post.repostCount ≥ 5) &&
            countOf cc convKey ≤ 2 then true
        else if (isL1 || isL2 || isInt) && countOf cc convKey ≤ 1 &&
            decide (sp.score > 100) then true
        else if !isL1 && !isL2 && !isInt && decide (sp.score > 500) &&
            countOf cc convKey ≤ 1 then true
        else false
      (if push then acc.1 ++ [sp] else acc.1, tc, cc))
    ([], [], [])).1

/-- Lexicographic code-point comparison on char lists, the model of
`localeCompare < 0` on the ASCII URIs used here; written structurally on the
code points so that concrete comparisons kernel-reduce. -/
def charsLt : List Char → List Char → Bool
  | _, [] => false
  | [], _ :: _ => true
  | c :: cs, d :: ds =>
    if c.toNat < d.toNat then true
    else if d.toNat < c.toNat then false
    else charsLt cs ds

/-- Code-point string comparison. -/
def strLt (a b : String) : Bool := charsLt a.data b.data

theorem charsLt_irrefl (l : List Char) : charsLt l l = false := by
  induction l with
  | nil => rfl
  | cons c cs ih =>
    show (if c.toNat < c.toNat then true
      else if c.toNat < c.toNat then false else charsLt cs cs) = false
    rw [if_neg (Nat.lt_irrefl _), if_neg (Nat.lt_irrefl _)]
    exact ih

theorem strLt_irrefl (s : String) : strLt s s = false := charsLt_irrefl s.data

/-- The stable pagination key order: score descending, then indexedAt
descending, then URI ascending. -/
def keyBefore (a b : Scored) : Bool :=
  if a.score != b.score then decide (a.score > b.score)
  else if a.post.indexedAtMs != b.post.indexedAtMs then
    decide (a.post.indexedAtMs > b.post.indexedAtMs)
  else strLt a.post.uri b.post.uri

/-- The deterministically sorted final pool. -/
noncomputable def finalPool (ctx : RankCtx) : List Scored :=
  jsSort keyBefore (dedupStage ctx (filterStage ctx (scoredPosts ctx)))

/-- The scan of `applyAccountDiversity` for the best remaining candidate:
highest score among posts from unused authors, first index winning ties. -/
def bestChoice (remaining : List Scored) (used : List String) :
    Option (ℕ × Scored) :=
  remaining.enum.foldl
    (fun best p =>
      if !(used.contains p.2.post.author) &&
          (match best with
           | none => true
           | some b => decide (p.2.score > b.2.score)) then some p
      else best)
    none

/-- The greedy diversity loop of `applyAccountDiversity`: pick the best
candidate from an unused author (falling back to the head when every author
is used), resetting the used-author set to the last two authors every three
placed posts; the fuel equals the remaining length, which shrinks by one per
step. -/
def divLoop (total : ℕ) : ℕ → List Scored → List String → List Scored →
    List Scored
  | 0, result, _, remaining => result ++ remaining
  | fuel + 1, result, used, remaining =>
    if remaining.isEmpty || !(decide (result.length < total)) then
      result ++ remaining
    else
      match bestChoice remaining used with
      | none =>
        match remaining with
        | [] => result
        | h :: t => divLoop total fuel (result ++ [h])
            (addSet used h.post.author) t
      | some (i, sel) =>
        let result' := result ++ [sel]
        let used' := addSet used sel.post.author
        let used'' :=
          if result'.length % 3 == 0 then
            if result'.length ≥ 2 then
              [(result'.getLast?.map (fun x => x.post.author)).getD ""
               , ((result'.drop (result'.length - 2)).head?.map
                  (fun x => x.post.author)).getD ""]
            else []
          else used'
        divLoop total fuel result' used'' (remaining.eraseIdx i)

/-- `applyAccountDiversity`: greedy reorder preventing consecutive authors,
with the 50 %-loss fallback to the original order. -/
def applyAccountDiversity (posts : List Scored) : List Scored :=
  if posts.length ≤ 1 then posts
  else
    match posts with
    | [] => posts
    | first :: rest =>
      let result := divLoop posts.length rest.length [first]
        [first.post.author] rest
      if ((result.length : ℚ)) < ((posts.length : ℚ)) * 0.5 then posts
      else result

/-- The served pool after diversity. -/
noncomputable def rankPool (ctx : RankCtx) : List Scored :=
  applyAccountDiversity (finalPool ctx)

/-- Serve-mode request parameters; the opaque cursor string
`score::timestampMs::uri` is modelled by the triple it encodes. -/
structure RankParams where
  limit : Option ℕ
  cursor : Option (ℤ × ℤ × String)

/-- One skeleton feed item (the repost reason reduced to its repost URI). -/
structure FeedItem where
  post : String
  reasonRepost : Option String
deriving DecidableEq, Repr

/-- A rank response: the feed page and the next-page cursor. -/
structure RankResult where
  feed : List FeedItem
  cursor : Option (ℤ × ℤ × String)
deriving DecidableEq, Repr

/-- `Math.min(params.limit || 30, 100)`. -/
def effLimit : Option ℕ → ℕ
  | none => 30
  | some 0 => 30
  | some (n + 1) => if n + 1 ≤ 100 then n + 1 else 100

/-- The strictly-after cursor filter on the pagination key. -/
def cursorFilter (pool : List Scored) (c : ℤ × ℤ × String) : List Scored :=
  pool.filter (fun sp =>
    if sp.score < c.1 then true
    else if sp.score > c.1 then false
    else if sp.post.indexedAtMs < c.2.1 then true
    else if sp.post.indexedAtMs > c.2.1 then false
    else strLt sp.post.uri c.2.2)

/-- The serve-mode response: diversity, cursor filter, page slice, feed
items (repost reason only for non-L1 authors) and the next cursor when the
page is full. -/
noncomputable def rank (ctx : RankCtx) (params : RankParams) : RankResult :=
  let pool := rankPool ctx
  let limit := effLimit params.limit
  let slice :=
    match params.cursor with
    | some c => cursorFilter pool c
    | none => pool
  let page := slice.take limit
  let feed := page.map (fun sp =>
    { post := sp.post.uri
      reasonRepost :=
        if sp.repostUri.isSome && !((layer1 ctx).contains sp.post.author) then
          sp.repostUri
        else none })
  let cursor :=
    match page.getLast? with
    | some last =>
      if page.length == limit then
        some (last.score, last.post.indexedAtMs, last.post.uri)
      else none
    | none => none
  { feed := feed, cursor := cursor }

/-! ### C10: the diversity pass is a permutation -/

theorem divLoop_zero (total : ℕ) (result : List Scored) (used : List String)
    (remaining : List Scored) :
    divLoop total 0 result used remaining = result ++ remaining := rfl

theorem divLoop_succ (total fuel : ℕ) (result : List Scored)
    (used : List String) (remaining : List Scored) :
    divLoop total (fuel + 1) result used remaining =
      if remaining.isEmpty || !(decide (result.length < total)) then
        result ++ remaining
      else
        match bestChoice remaining used with
        | none =>
          match remaining with
          | [] => result
          | h :: t => divLoop total fuel (result ++ [h])
              (addSet used h.post.author) t
        | some (i, sel) =>
          divLoop total fuel (result ++ [sel])
            (if (result ++ [sel]).length % 3 == 0 then
              if (result ++ [sel]).length ≥ 2 then
                [((result ++ [sel]).getLast?.map (fun x => x.post.author)).getD ""
                 , (((result ++ [sel]).drop ((result ++ [sel]).length - 2)).head?.map
                    (fun x => x.post.author)).getD ""]
              else []
            else addSet used sel.post.author)
            (remaining.eraseIdx i) := by
  rfl

theorem applyAccountDiversity_cons (first : Scored) (rest : List Scored) :
    applyAccountDiversity (first :: rest) =
      if (first :: rest).length ≤ 1 then first :: rest
      else
        if ((divLoop (first :: rest).length rest.length [first]
            [first.post.author] rest).length : ℚ) <
            (((first :: rest).length : ℚ)) * 0.5 then first :: rest
        else divLoop (first :: rest).length rest.length [first]
          [first.post.author] rest := rfl

theorem bestChoice_getElem {l : List Scored} {used : List String} {i : ℕ}
    {sp : Scored} (h : bestChoice l used = some (i, sp)) : l[i]? = some sp := by
  rw [← List.mk_mem_enum_iff_getElem?]
  rw [bestChoice] at h
  have key : ∀ (es : List (ℕ × Scored)) (acc : Option (ℕ × Scored)),
      (∀ j x, acc = some (j, x) → (j, x) ∈ l.enum) →
      (∀ e ∈ es, e ∈ l.enum) →
      ∀ j x,
        es.foldl
          (fun best p =>
            if !(used.contains p.2.post.author) &&
                (match best with
                 | none => true
                 | some b => decide (p.2.score > b.2.score)) then some p
            else best) acc = some (j, x) → (j, x) ∈ l.enum := by
    intro es
    induction es with
    | nil => intro acc hacc _ j x hl; exact hacc j x hl
    | cons e es ih =>
      intro acc hacc hes j x hl
      rw [List.foldl_cons] at hl
      refine ih _ ?_ (fun y hy => hes y (List.mem_cons_of_mem _ hy)) j x hl
      intro j' x' hcase
      split at hcase
      · have he : e = (j', x') := Option.some_inj.mp hcase
        rw [← he]
        exact hes e (List.mem_cons_self _ _)
      · exact hacc j' x' hcase
  exact key l.enum none (by intro j x hx; cases hx) (fun e he => he) i sp h

theorem divLoop_perm (fuel : ℕ) :
    ∀ (total : ℕ) (result : List Scored) (used : List String)
      (remaining : List Scored),
      (divLoop total fuel result used remaining).Perm (result ++ remaining) := by
  induction fuel with
  | zero =>
    intro total result used remaining
    rw [divLoop_zero]
  | succ fuel ih =>
    intro total result used remaining
    rw [divLoop_succ]
    by_cases hstop : (remaining.isEmpty || !(decide (result.length < total))) = true
    · rw [if_pos hstop]
    · rw [if_neg hstop]
      cases hbc : bestChoice remaining used with
      | none =>
        cases remaining with
        | nil => simp
        | cons h t =>
          have hp := ih total (result ++ [h]) (addSet used h.post.author) t
          have he : (result ++ [h]) ++ t = result ++ h :: t := by simp
          rw [← he]
          exact hp
      | some p =>
        obtain ⟨i, sel⟩ := p
        have hget : remaining[i]? = some sel := bestChoice_getElem hbc
        have hi : i < remaining.length := by
          by_contra hge
          rw [List.getElem?_eq_none (by omega)] at hget
          cases hget
        have hsga : remaining[i] = sel := by
          have h9 := List.getElem?_eq_getElem hi
          rw [h9] at hget
          exact Option.some_inj.mp hget
        have hperm : (sel :: remaining.eraseIdx i).Perm remaining := by
          have h1 : remaining.Perm (sel :: remaining.erase sel) :=
            List.perm_cons_erase (by rw [← hsga]; exact List.getElem_mem hi)
          have h2 : (remaining.erase sel).Perm (remaining.eraseIdx i) := by
            rw [← hsga]
            exact List.erase_getElem hi
          exact ((h2.symm.cons sel).trans h1.symm).symm.symm
        refine (ih total (result ++ [sel]) _ (remaining.eraseIdx i)).trans ?_
        have he : (result ++ [sel]) ++ remaining.eraseIdx i =
            result ++ sel :: remaining.eraseIdx i := by simp
        rw [he]
        exact List.Perm.append_left result hperm

/-- C10: `applyAccountDiversity` only reorders its input: the output is a
permutation of the input (same length, same multiset), so the diversity pass
never drops a candidate; moreover the internal 50 %-loss fallback guard is
never true, because the greedy loop moves every element of the pool into the
result. -/
theorem applyAccountDiversity_perm (posts : List Scored) :
    (applyAccountDiversity posts).Perm posts ∧
    ∀ (first : Scored) (rest : List Scored),
      ¬ (((divLoop (first :: rest).length rest.length [first]
        [first.post.author] rest).length : ℚ) <
        (((first :: rest).length : ℚ)) * 0.5) := by
  have guard : ∀ (first : Scored) (rest : List Scored),
      ¬ (((divLoop (first :: rest).length rest.length [first]
        [first.post.author] rest).length : ℚ) <
        (((first :: rest).length : ℚ)) * 0.5) := by
    intro first rest
    have hperm : (divLoop (first :: rest).length rest.length [first]
        [first.post.author] rest).Perm ([first] ++ rest) :=
      divLoop_perm rest.length (first :: rest).length [first]
        [first.post.author] rest
    rw [hperm.length_eq]
    push_neg
    show (((first :: rest).length : ℚ)) * 0.5 ≤ (((first :: rest).length : ℚ))
    have h0 : (0 : ℚ) ≤ (((first :: rest).length : ℚ)) := by positivity
    linarith
  refine ⟨?_, guard⟩
  cases posts with
  | nil => exact List.Perm.refl _
  | cons first rest =>
    by_cases hlen : (first :: rest).length ≤ 1
    · rw [applyAccountDiversity_cons, if_pos hlen]
    · have hperm : (divLoop (first :: rest).length rest.length [first]
          [first.post.author] rest).Perm ([first] ++ rest) :=
        divLoop_perm rest.length (first :: rest).length [first]
          [first.post.author] rest
      rw [applyAccountDiversity_cons, if_neg hlen, if_neg (guard first rest)]
      exact hperm

/-! ### C5: serve-mode pagination -/

/-- The cursor-filter predicate of the serve-mode handler, named for reuse. -/
def cPred (c : ℤ × ℤ × String) (sp : Scored) : Bool :=
  if sp.score < c.1 then true
  else if sp.score > c.1 then false
  else if sp.post.indexedAtMs < c.2.1 then true
  else if sp.post.indexedAtMs > c.2.1 then false
  else strLt sp.post.uri c.2.2

theorem cursorFilter_eq_filter (pool : List Scored) (c : ℤ × ℤ × String) :
    cursorFilter pool c = pool.filter (cPred c) := rfl

/-- `b` sorts strictly after `a` under the pagination key, with the
(score, indexedAt) part alone deciding it (no URI ties). -/
def keyStrictAfter (a b : Scored) : Prop :=
  b.score < a.score ∨ (b.score = a.score ∧ b.post.indexedAtMs < a.post.indexedAtMs)

theorem cPred_self (x : Scored) :
    cPred (x.score, x.post.indexedAtMs, x.post.uri) x = false := by
  simp [cPred, strLt_irrefl]

theorem cPred_before {x last : Scored} (h : keyStrictAfter x last) :
    cPred (last.score, last.post.indexedAtMs, last.post.uri) x = false := by
  rcases h with h | ⟨h1, h2⟩
  · rw [cPred, if_neg (not_lt.mpr (le_of_lt h)), if_pos h]
  · rw [cPred, if_neg (by rw [h1]; exact lt_irrefl _),
      if_neg (by rw [h1]; exact lt_irrefl _),
      if_neg (not_lt.mpr (le_of_lt h2)), if_pos h2]

theorem cPred_after {last y : Scored} (h : keyStrictAfter last y) :
    cPred (last.score, last.post.indexedAtMs, last.post.uri) y = true := by
  rcases h with h | ⟨h1, h2⟩
  · rw [cPred, if_pos h]
  · rw [cPred, if_neg (by rw [h1]; exact lt_irrefl _),
      if_neg (by rw [h1]; exact lt_irrefl _), if_pos h2]

theorem cursorFilter_drop :
    ∀ (pool : List Scored) (L : ℕ), 0 < L → L ≤ pool.length →
    pool.Pairwise keyStrictAfter →
    ∀ last : Scored, pool[L - 1]? = some last →
    cursorFilter pool (last.score, last.post.indexedAtMs, last.post.uri) =
      pool.drop L := by
  intro pool
  induction pool with
  | nil =>
    intro L hL hlen _ last _
    simp at hlen
    omega
  | cons a rest ih =>
    intro L hL hlen hsort last hlast
    obtain ⟨hhead, htail⟩ := List.pairwise_cons.mp hsort
    cases L with
    | zero => exact absurd hL (lt_irrefl 0)
    | succ l =>
      cases l with
      | zero =>
        have hla : last = a := by
          simp only [Nat.sub_self, List.getElem?_cons_zero] at hlast
          exact (Option.some_inj.mp hlast).symm
        subst hla
        rw [cursorFilter_eq_filter]
        have hfa : cPred (last.score, last.post.indexedAtMs, last.post.uri)
            last = false := cPred_self last
        rw [List.filter_cons_of_neg (by simp [hfa])]
        have : rest.filter
            (cPred (last.score, last.post.indexedAtMs, last.post.uri)) = rest :=
          List.filter_eq_self.mpr (fun x hx => cPred_after (hhead x hx))
        rw [this]
        rfl
      | succ l' =>
        have hlast' : rest[l']? = some last := by simpa using hlast
        have hmem : last ∈ rest := List.getElem?_mem hlast'
        have hfa : cPred (last.score, last.post.indexedAtMs, last.post.uri)
            a = false := cPred_before (hhead last hmem)
        rw [cursorFilter_eq_filter, List.filter_cons_of_neg (by simp [hfa])]
        have hrec := ih (l' + 1) (by omega) (by simpa using hlen) htail last
          (by simpa using hlast')
        rw [cursorFilter_eq_filter] at hrec
        rw [hrec]
        rfl

theorem effLimit_eq (L : ℕ) (h1 : 0 < L) (h2 : L ≤ 100) :
    effLimit (some L) = L := by
  cases L with
  | zero => exact absurd h1 (lt_irrefl 0)
  | succ n =>
    show (if n + 1 ≤ 100 then n + 1 else 100) = n + 1
    rw [if_pos h2]

/-- The 50 %-loss fallback guard of `applyAccountDiversity` is false on every
cons input, because the greedy loop preserves the length. -/
theorem divLoop_guard_false (first : Scored) (rest : List Scored) :
    ¬ (((divLoop (first :: rest).length rest.length [first]
      [first.post.author] rest).length : ℚ) <
      (((first :: rest).length : ℚ)) * 0.5) := by
  have hperm : (divLoop (first :: rest).length rest.length [first]
      [first.post.author] rest).Perm ([first] ++ rest) :=
    divLoop_perm rest.length (first :: rest).length [first]
      [first.post.author] rest
  rw [hperm.length_eq]
  push_neg
  show (((first :: rest).length : ℚ)) * 0.5 ≤ (((first :: rest).length : ℚ))
  have h0 : (0 : ℚ) ≤ (((first :: rest).length : ℚ)) := by positivity
  linarith

/-- The first URI of the C5 pool (author a, 300 likes). -/
def c5UriA1 : String := "at://did:ex:a/app.bsky.feed.post/x1"

/-- The second URI of the C5 pool (author a, 200 likes). -/
def c5UriA2 : String := "at://did:ex:a/app.bsky.feed.post/x2"

/-- The third URI of the C5 pool (author b, 100 likes). -/
def c5UriB : String := "at://did:ex:b/app.bsky.feed.post/y1"

/-- C5 post 1. -/
def c5Pa1 : Post :=
  { uri := c5UriA1, cid := "c", author := "did:ex:a"
    indexedAtMs := 0, likeCount := 300, replyCount := 0, repostCount := 0
    replyRoot := none, replyParent := none, text := none
    hasImage := false, hasVideo := false, hasExternal := false }

/-- C5 post 2 (same author as post 1). -/
def c5Pa2 : Post :=
  { uri := c5UriA2, cid := "c", author := "did:ex:a"
    indexedAtMs := 0, likeCount := 200, replyCount := 0, repostCount := 0
    replyRoot := none, replyParent := none, text := none
    hasImage := false, hasVideo := false, hasExternal := false }

/-- C5 post 3 (a different author). -/
def c5Pb : Post :=
  { uri := c5UriB, cid := "c", author := "did:ex:b"
    indexedAtMs := 0, likeCount := 100, replyCount := 0, repostCount := 0
    replyRoot := none, replyParent := none, text := none
    hasImage := false, hasVideo := false, hasExternal := false }

/-- The C5 serve-mode context: three posts, two authors, no graph rows. -/
def c5Ctx : RankCtx :=
  { store :=
      { posts := [c5Pa1, c5Pa2, c5Pb], follows := [], interactions := []
        seen := [], keywords := [], fatigue := [], tasteSim := [], tasteRep := []
        infl := [] }
    nowMs := 0, requesterDid := "did:ex:u", batchMode := false }

theorem c5_layer1 : layer1 c5Ctx = [] := by decide

theorem c5_layer2 : layer2 c5Ctx = [] := by decide

theorem c5_mut : mutuals c5Ctx = [] := by decide

theorem c5_int : interactedDids c5Ctx = [] := by decide

set_option maxRecDepth 8000 in
theorem c5_jitA1 : jitterOf c5Ctx c5Pa1 = 252 := by decide

set_option maxRecDepth 8000 in
theorem c5_jitA2 : jitterOf c5Ctx c5Pa2 = 189 := by decide

set_option maxRecDepth 8000 in
theorem c5_jitB : jitterOf c5Ctx c5Pb = 284 := by decide

theorem c5_netmap : networkEffortMap c5Ctx = [] := by
  simp [networkEffortMap, c5Ctx]

theorem c5_net : ∀ u, networkOf c5Ctx u = none := by
  intro u
  simp [networkOf, c5_netmap]

theorem c5_taste : ∀ u, tasteDataOf c5Ctx u = none := by
  intro u
  have h : tasteSimilarPosts c5Ctx = [] := by decide
  simp [tasteDataOf, h]

theorem c5_ui : ∀ u, userInteractionOf c5Ctx u = none := fun _ => rfl

theorem c5_fat : ∀ p, fatigueAdd c5Ctx p = 0 := fun _ => rfl

theorem c5_chain1 : chainAdd c5Ctx c5Pa1 = 0 := rfl

theorem c5_chain2 : chainAdd c5Ctx c5Pa2 = 0 := rfl

theorem c5_chain3 : chainAdd c5Ctx c5Pb = 0 := rfl

theorem c5_kw1 : matchedKeywords c5Ctx c5Pa1 = [] := rfl

theorem c5_kw2 : matchedKeywords c5Ctx c5Pa2 = [] := rfl

theorem c5_kw3 : matchedKeywords c5Ctx c5Pb = [] := rfl

theorem c5_age1 : ageInHoursOf c5Ctx c5Pa1 = 0 := by
  norm_num [ageInHoursOf, c5Ctx, c5Pa1]

theorem c5_age2 : ageInHoursOf c5Ctx c5Pa2 = 0 := by
  norm_num [ageInHoursOf, c5Ctx, c5Pa2]

theorem c5_age3 : ageInHoursOf c5Ctx c5Pb = 0 := by
  norm_num [ageInHoursOf, c5Ctx, c5Pb]

theorem c5_aff : ∀ p, authorAffinityOf c5Ctx p = 1 := by
  intro p
  norm_num [authorAffinityOf, authorFatigueOf, c5Ctx]

theorem c5Pa1_uri : c5Pa1.uri = c5UriA1 := rfl

theorem c5Pa2_uri : c5Pa2.uri = c5UriA2 := rfl

theorem c5Pb_uri : c5Pb.uri = c5UriB := rfl

set_option maxRecDepth 8000 in
theorem c5_unique : uniquePosts c5Ctx = [c5Pa1, c5Pa2, c5Pb] := by
  have hseed : userSeedOf "did:ex:u" = 759 := by decide
  have ht0 : ((759 : ℤ)).tmod 1000 = 759 := by decide
  have ht1000 : ((1000 : ℤ)).tmod 1000 = 0 := by decide
  have ht500 : ((500 : ℤ)).tmod 1000 = 500 := by decide
  have ht2000 : ((2000 : ℤ)).tmod 1000 = 0 := by decide
  have hfA : bucketFactors 759 =
      ((110356 : ℚ)/233280, (43294 : ℚ)/49297, (8556 : ℚ)/9301) := by
    rw [bucketFactors]
    norm_num [show ((7108756 : ℤ)).tmod 233280 = 110356 from by decide,
      show ((177068821 : ℤ)).tmod 49297 = 43294 from by decide,
      show ((37649703 : ℤ)).tmod 9301 = 8556 from by decide]
  have hfB : bucketFactors 0 =
      ((49297 : ℚ)/233280, (9301 : ℚ)/49297, (755 : ℚ)/9301) := by
    rw [bucketFactors]
    norm_num [show ((49297 : ℤ)).tmod 233280 = 49297 from by decide,
      show ((9301 : ℤ)).tmod 49297 = 9301 from by decide,
      show ((233280 : ℤ)).tmod 9301 = 755 from by decide]
  norm_num [uniquePosts, bucket1, bucket1_5, bucket2, bucket3, bucketTop,
    bucketPre, jsSort, insSorted, memOrDummy, layer1, layer2, interactedDids,
    tasteSimilarPosts, tasteSimilarUsers, c5Ctx, c5Pa1, c5Pa2, c5Pb,
    c5UriA1, c5UriA2, c5UriB,
    hseed, ht0, ht1000, ht500, ht2000, hfA, hfB, List.filter, List.foldl]
  decide

theorem c5_preA1 : preSeenScore c5Ctx c5Pa1 = 3360 := by
  simp only [preSeenScore, c5_age1, c5_layer1, c5_layer2, c5_mut, c5_int,
    c5_aff, c5Pa1_uri, c5_taste, c5_kw1, c5_net, c5_ui]
  norm_num [c5Pa1, isOutsideOf, c5_layer1, c5_layer2, c5_int,
    hasKeywordMatchOf, c5_kw1, Real.rpow_zero, jsRoundR, jsMinI,
    Int.floor_eq_iff]

theorem c5_preA2 : preSeenScore c5Ctx c5Pa2 = 1716 := by
  simp only [preSeenScore, c5_age2, c5_layer1, c5_layer2, c5_mut, c5_int,
    c5_aff, c5Pa2_uri, c5_taste, c5_kw2, c5_net, c5_ui]
  norm_num [c5Pa2, isOutsideOf, c5_layer1, c5_layer2, c5_int,
    hasKeywordMatchOf, c5_kw2, Real.rpow_zero, jsRoundR, jsMinI,
    Int.floor_eq_iff]

theorem c5_preB : preSeenScore c5Ctx c5Pb = 66 := by
  simp only [preSeenScore, c5_age3, c5_layer1, c5_layer2, c5_mut, c5_int,
    c5_aff, c5Pb_uri, c5_taste, c5_kw3, c5_net, c5_ui]
  norm_num [c5Pb, isOutsideOf, c5_layer1, c5_layer2, c5_int,
    hasKeywordMatchOf, c5_kw3, Real.rpow_zero, jsRoundR, jsMinI,
    Int.floor_eq_iff]

theorem c5_score1 : scorePost c5Ctx c5Pa1 = 3612 := by
  rw [scorePost]
  have hsr : scoreReal c5Ctx c5Pa1 = 3612 := by
    simp only [scoreReal, c5Pa1_uri, c5_preA1, c5_fat, c5_chain1, c5_jitA1]
    norm_num [seenCountOf, seenRecent, c5Ctx]
  rw [hsr, jsRoundR, Int.floor_eq_iff]
  constructor <;> norm_num

theorem c5_score2 : scorePost c5Ctx c5Pa2 = 1905 := by
  rw [scorePost]
  have hsr : scoreReal c5Ctx c5Pa2 = 1905 := by
    simp only [scoreReal, c5Pa2_uri, c5_preA2, c5_fat, c5_chain2, c5_jitA2]
    norm_num [seenCountOf, seenRecent, c5Ctx]
  rw [hsr, jsRoundR, Int.floor_eq_iff]
  constructor <;> norm_num

theorem c5_score3 : scorePost c5Ctx c5Pb = 350 := by
  rw [scorePost]
  have hsr : scoreReal c5Ctx c5Pb = 350 := by
    simp only [scoreReal, c5Pb_uri, c5_preB, c5_fat, c5_chain3, c5_jitB]
    norm_num [seenCountOf, seenRecent, c5Ctx]
  rw [hsr, jsRoundR, Int.floor_eq_iff]
  constructor <;> norm_num

theorem c5_scored : scoredPosts c5Ctx =
    [⟨c5Pa1, 3612, none⟩, ⟨c5Pa2, 1905, none⟩, ⟨c5Pb, 350, none⟩] := by
  simp only [scoredPosts, c5_unique, List.map_cons, List.map_nil, c5_score1,
    c5_score2, c5_score3, c5_net, Option.none_bind]

set_option maxRecDepth 8000 in
theorem c5_final : finalPool c5Ctx =
    [⟨c5Pa1, 3612, none⟩, ⟨c5Pa2, 1905, none⟩, ⟨c5Pb, 350, none⟩] := by
  simp only [finalPool, c5_scored]
  decide

set_option maxRecDepth 8000 in
theorem c5_pool : rankPool c5Ctx =
    [⟨c5Pa1, 3612, none⟩, ⟨c5Pb, 350, none⟩, ⟨c5Pa2, 1905, none⟩] := by
  simp only [rankPool, c5_final]
  rw [applyAccountDiversity_cons, if_neg (by decide),
    if_neg (divLoop_guard_false _ _)]
  decide

set_option maxRecDepth 8000 in
theorem c5_rank1 : rank c5Ctx { limit := some 2, cursor := none } =
    { feed := [{ post := c5UriA1, reasonRepost := none },
               { post := c5UriB, reasonRepost := none }]
      cursor := some (350, 0, c5UriB) } := by
  simp only [rank, c5_pool]
  decide

set_option maxRecDepth 8000 in
theorem c5_rank2 : rank c5Ctx { limit := some 2, cursor := some (350, 0, c5UriB) } =
    { feed := [], cursor := none } := by
  simp only [rank, c5_pool]
  decide

set_option maxRecDepth 8000 in
theorem c5_rank3 : rank c5Ctx { limit := some 4, cursor := none } =
    { feed := [{ post := c5UriA1, reasonRepost := none },
               { post := c5UriB, reasonRepost := none },
               { post := c5UriA2, reasonRepost := none }]
      cursor := none } := by
  simp only [rank, c5_pool]
  decide

/-- C5 counterexample: on a fixed three-post snapshot the first page of size
2 plus the page fetched with the returned cursor do not reconstruct the
single size-4 page.  The diversity pass reorders the pool after the
pagination sort, so the cursor (taken from the last served item) cuts off
the still-unserved post whose key sorts before it. -/
theorem rank_pagination_counterexample :
    (rank c5Ctx { limit := some 2, cursor := none }).cursor =
      some (350, 0, c5UriB) ∧
    ¬ ((rank c5Ctx { limit := some 2, cursor := none }).feed ++
       (rank c5Ctx { limit := some 2, cursor := some (350, 0, c5UriB) }).feed =
       (rank c5Ctx { limit := some 4, cursor := none }).feed) := by
  rw [c5_rank1, c5_rank2, c5_rank3]
  exact ⟨rfl, by decide⟩

set_option maxHeartbeats 2000000 in
/-- C5 (amended): pagination does compose on snapshots where the diversified
pool happens to be strictly descending in (score, indexedAt) under the
pagination key — then the cursor returned by the first call cuts the pool
exactly after the first page, the two pages are disjoint, and their
concatenation equals the single double-limit page. -/
theorem rank_pagination_sorted (ctx : RankCtx) (L : ℕ) (c : ℤ × ℤ × String)
    (hL1 : 0 < L) (hL2 : 2 * L ≤ 100)
    (hsort : (rankPool ctx).Pairwise keyStrictAfter)
    (hc : (rank ctx { limit := some L, cursor := none }).cursor = some c) :
    ((rank ctx { limit := some L, cursor := none }).feed ++
      (rank ctx { limit := some L, cursor := some c }).feed =
      (rank ctx { limit := some (2 * L), cursor := none }).feed) ∧
    ∀ sp ∈ (rankPool ctx).take L, sp ∉ cursorFilter (rankPool ctx) c := by
  have hL100 : L ≤ 100 := by omega
  have he1 : effLimit (some L) = L := effLimit_eq L hL1 hL100
  have he2 : effLimit (some (2 * L)) = 2 * L := effLimit_eq (2 * L) (by omega) hL2
  simp only [rank, he1, he2] at hc ⊢
  generalize hP : rankPool ctx = pool at hc hsort ⊢
  cases hgl : (pool.take L).getLast? with
  | none =>
    rw [hgl] at hc
    exact absurd hc (by simp)
  | some last =>
    simp only [hgl] at hc
    by_cases hlen : (((pool.take L).length == L) = true)
    case neg =>
      rw [if_neg hlen] at hc
      exact absurd hc (by simp)
    case pos =>
      rw [if_pos hlen] at hc
      have hceq : c = (last.score, last.post.indexedAtMs, last.post.uri) :=
        (Option.some_inj.mp hc).symm
      subst hceq
      have hlenN : (pool.take L).length = L := by
        have := hlen
        simpa using this
      have hLlen : L ≤ pool.length := by
        rw [List.length_take] at hlenN
        rcases Nat.le_total L pool.length with h | h
        · exact h
        · rw [Nat.min_eq_right h] at hlenN; omega
      have hlastE : pool[L - 1]? = some last := by
        rw [List.getLast?_eq_getElem?, hlenN] at hgl
        rwa [List.getElem?_take_of_lt (by omega)] at hgl
      have hdrop := cursorFilter_drop pool L hL1 hLlen hsort last hlastE
      constructor
      · rw [hdrop, ← List.map_append]
        congr 1
        rw [List.take_drop, two_mul,
          show pool.take L = (pool.take (L + L)).take L
            from by rw [List.take_take, Nat.min_eq_left (by omega)]]
        exact List.take_append_drop L _
      · intro sp hsp hsp2
        rw [hdrop] at hsp2
        have hpa : List.Pairwise keyStrictAfter
            (pool.take L ++ pool.drop L) := by
          rw [List.take_append_drop]; exact hsort
        have hrel := (List.pairwise_append.mp hpa).2.2 sp hsp sp hsp2
        rcases hrel with h | ⟨h1, h2⟩
        · exact absurd h (lt_irrefl _)
        · exact absurd h2 (lt_irrefl _)

/-! ### C1: the already-liked hard filter misses liked-then-reposted posts -/

/-- The URI of the C1 post. -/
def c1Uri : String := "at://did:ex:a/app.bsky.feed.post/p1"

/-- The C1 post: a fresh original by an interacted author with 600 likes. -/
def c1P1 : Post :=
  { uri := c1Uri, cid := "c", author := "did:ex:a"
    indexedAtMs := 0, likeCount := 600, replyCount := 0, repostCount := 0
    replyRoot := none, replyParent := none, text := none
    hasImage := false, hasVideo := false, hasExternal := false }

/-- The requester's like of the C1 post, still in `graph_interaction`. -/
def c1Like : InteractionRow :=
  { actor := "did:ex:u", target := c1Uri, itype := .like, weight := 5
    indexedAtMs := -2000, interactionUri := none }

/-- The requester's later repost of the same post: the `forEach` over the
interaction rows overwrites `userInteractionMap[uri]` with `repost`. -/
def c1Repost : InteractionRow :=
  { actor := "did:ex:u", target := c1Uri, itype := .repost, weight := 3
    indexedAtMs := -1000, interactionUri := none }

/-- The C1 serve-mode context. -/
def c1Ctx : RankCtx :=
  { store :=
      { posts := [c1P1], follows := [], interactions := [c1Like, c1Repost]
        seen := [], keywords := [], fatigue := [], tasteSim := [], tasteRep := []
        infl := [] }
    nowMs := 0, requesterDid := "did:ex:u", batchMode := false }

theorem c1P1_uri : c1P1.uri = c1Uri := rfl

set_option maxRecDepth 8000 in
theorem c1_unique : uniquePosts c1Ctx = [c1P1] := by decide

set_option maxRecDepth 8000 in
theorem c1_layer1 : layer1 c1Ctx = [] := by decide

set_option maxRecDepth 8000 in
theorem c1_layer2 : layer2 c1Ctx = [] := by decide

set_option maxRecDepth 8000 in
theorem c1_mut : mutuals c1Ctx = [] := by decide

set_option maxRecDepth 8000 in
theorem c1_int : interactedDids c1Ctx = ["did:ex:a"] := by decide

set_option maxRecDepth 8000 in
theorem c1_ui : userInteractionOf c1Ctx c1Uri = some .repost := by decide

set_option maxRecDepth 8000 in
theorem c1_jit : jitterOf c1Ctx c1P1 = 1192 := by decide

theorem c1_age : ageInHoursOf c1Ctx c1P1 = 0 := by
  norm_num [ageInHoursOf, c1Ctx, c1P1]

theorem c1_aff : authorAffinityOf c1Ctx c1P1 = 1 := by
  norm_num [authorAffinityOf, authorFatigueOf, c1Ctx, c1P1]

set_option maxRecDepth 8000 in
theorem c1_taste : tasteDataOf c1Ctx c1Uri = none := by decide

theorem c1_kw : matchedKeywords c1Ctx c1P1 = [] := rfl

theorem c1_net : networkOf c1Ctx c1Uri = none := by
  simp [networkOf, networkEffortMap, influentialL2Dids, inflPairs, layer1,
    memOrDummy, jsSort, c1Ctx, c1Like, c1Repost, List.filter]

theorem c1_fat : fatigueAdd c1Ctx c1P1 = 0 := rfl

theorem c1_chain : chainAdd c1Ctx c1P1 = 0 := rfl

theorem c1_pre : preSeenScore c1Ctx c1P1 = 4810 := by
  simp only [preSeenScore, c1_age, c1_layer1, c1_layer2, c1_mut, c1_int,
    c1_aff, c1P1_uri, c1_taste, c1_kw, c1_net, c1_ui]
  norm_num [c1P1, isOutsideOf, c1_layer1, c1_layer2, c1_int, c1P1_uri,
    hasKeywordMatchOf, c1_kw, Real.rpow_zero, jsRoundR, jsMinI,
    Int.floor_eq_iff]

theorem c1_score : scorePost c1Ctx c1P1 = 6002 := by
  rw [scorePost]
  have hsr : scoreReal c1Ctx c1P1 = 6002 := by
    simp only [scoreReal, c1P1_uri, c1_pre, c1_fat, c1_chain, c1_jit]
    norm_num [seenCountOf, seenRecent, c1Ctx]
  rw [hsr, jsRoundR, Int.floor_eq_iff]
  constructor <;> norm_num

theorem c1_scored : scoredPosts c1Ctx = [⟨c1P1, 6002, none⟩] := by
  simp only [scoredPosts, c1_unique, List.map_cons, List.map_nil, c1P1_uri,
    c1_score, c1_net, Option.none_bind]

theorem c1_final : finalPool c1Ctx = [⟨c1P1, 6002, none⟩] := by
  simp only [finalPool, c1_scored]
  decide

theorem c1_pool : rankPool c1Ctx = [⟨c1P1, 6002, none⟩] := by
  simp only [rankPool, c1_final]
  decide

/-- C1: the already-liked hard filter does not keep every liked URI out of
the feed.  The requester has a `like` row for the post in
`graph_interaction`, but a later `repost` row for the same target overwrites
the `userInteractionMap` entry, so the hard filter (which tests for `like`
only) passes the post and the serve-mode rank response contains it. -/
theorem liked_uri_in_rank_response :
    (c1Ctx.store.interactions.filter (fun i => i.actor == c1Ctx.requesterDid &&
      i.target == c1Uri && i.itype == IType.like)) ≠ [] ∧
    (rank c1Ctx { limit := none, cursor := none }).feed.map FeedItem.post =
      [c1Uri] := by
  constructor
  · decide
  · simp only [rank, c1_pool]
    decide

/-- Witness for the amended C5 theorem at a concrete one-post snapshot with
limit 1. -/
theorem rank_pagination_sorted_witness :
    (rank c1Ctx { limit := some 1, cursor := none }).cursor =
      some (6002, 0, c1Uri) ∧
    ((rank c1Ctx { limit := some 1, cursor := none }).feed ++
      (rank c1Ctx { limit := some 1, cursor := some (6002, 0, c1Uri) }).feed =
      (rank c1Ctx { limit := some (2 * 1), cursor := none }).feed) ∧
    ∀ sp ∈ (rankPool c1Ctx).take 1,
      sp ∉ cursorFilter (rankPool c1Ctx) (6002, 0, c1Uri) := by
  have hc : (rank c1Ctx { limit := some 1, cursor := none }).cursor =
      some (6002, 0, c1Uri) := by
    simp only [rank, c1_pool]
    decide
  have hsort : (rankPool c1Ctx).Pairwise keyStrictAfter := by
    rw [c1_pool]; simp
  have h := rank_pagination_sorted c1Ctx 1 (6002, 0, c1Uri) (by decide)
    (by decide) hsort hc
  exact ⟨hc, h.1, h.2⟩

/-! ### C6: the multiplicative seen-fatigue signal -/

/-- The concrete post of the C6 witness. -/
def c6Post : Post :=
  { uri := "at://did:ex:sa/app.bsky.feed.post/1", cid := "c", author := "did:ex:sa"
    indexedAtMs := 0, likeCount := 0, replyCount := 0, repostCount := 0
    replyRoot := none, replyParent := none, text := none
    hasImage := false, hasVideo := false, hasExternal := false }

/-- The concrete ranking context of the C6 witness: two recent seen-log rows
for the candidate's URI. -/
def c6Ctx : RankCtx :=
  { store :=
      { posts := [c6Post], follows := [], interactions := []
        seen :=
          [{ userDid := "did:ex:u", uri := "at://did:ex:sa/app.bsky.feed.post/1", seenAtMs := -1000 },
           { userDid := "did:ex:u", uri := "at://did:ex:sa/app.bsky.feed.post/1", seenAtMs := -2000 }]
        keywords := [], fatigue := [], tasteSim := [], tasteRep := []
        infl := [] }
    nowMs := 0, requesterDid := "did:ex:u", batchMode := false }

/-- C6: outside batch mode, a candidate whose URI has `n > 0` recent
seen-log entries (so its last-seen time is present) has its pre-multiplier
score multiplied by `0.5 ^ n` at that point of the signal sequence — the
author-fatigue, self-reply-chain and jitter terms are added afterwards — and
the multiplier is skipped in batch mode; concretely, when the pre-multiplier
score is 1000, the seen count is 2 and the remaining additive signals vanish,
the final rounded score is 250. -/
theorem seen_multiplier (ctx : RankCtx) (p : Post)
    (hn : 0 < seenCountOf ctx p.uri)
    (hl : (lastSeenOf ctx p.uri).isSome) :
    (¬ctx.batchMode →
      scoreReal ctx p =
        preSeenScore ctx p * (0.5 : ℝ) ^ seenCountOf ctx p.uri +
        (fatigueAdd ctx p : ℝ) + (chainAdd ctx p : ℝ) + (jitterOf ctx p : ℝ)) ∧
    (ctx.batchMode = true →
      scoreReal ctx p =
        preSeenScore ctx p +
        (fatigueAdd ctx p : ℝ) + (chainAdd ctx p : ℝ) + (jitterOf ctx p : ℝ)) ∧
    (¬ctx.batchMode → preSeenScore ctx p = 1000 → seenCountOf ctx p.uri = 2 →
      fatigueAdd ctx p = 0 → chainAdd ctx p = 0 → jitterOf ctx p = 0 →
      scorePost ctx p = 250) := by
  have hmain : ∀ hb : ¬ctx.batchMode,
      scoreReal ctx p =
        preSeenScore ctx p * (0.5 : ℝ) ^ seenCountOf ctx p.uri +
        (fatigueAdd ctx p : ℝ) + (chainAdd ctx p : ℝ) + (jitterOf ctx p : ℝ) := by
    intro hb
    simp only [scoreReal]
    rw [if_pos ⟨hn, hl, hb⟩]
  refine ⟨hmain, ?_, ?_⟩
  · intro hb
    simp only [scoreReal]
    rw [if_neg (by simp [hb])]
  · intro hb hpre hn2 hf hc hj
    rw [scorePost, hmain hb, hpre, hn2, hf, hc, hj]
    rw [jsRoundR]
    have h1 : (1000 : ℝ) * (0.5 : ℝ) ^ (2 : ℕ) + ((0 : ℤ) : ℝ) + ((0 : ℤ) : ℝ) +
        ((0 : ℤ) : ℝ) + 1 / 2 = 250.5 := by push_cast; norm_num
    rw [h1]
    rw [Int.floor_eq_iff]
    constructor <;> norm_num

/-- Witness for C6 at the concrete context with two recent views of the
candidate. -/
theorem seen_multiplier_witness :
    0 < seenCountOf c6Ctx c6Post.uri ∧ (lastSeenOf c6Ctx c6Post.uri).isSome ∧
    ((¬c6Ctx.batchMode →
      scoreReal c6Ctx c6Post =
        preSeenScore c6Ctx c6Post * (0.5 : ℝ) ^ seenCountOf c6Ctx c6Post.uri +
        (fatigueAdd c6Ctx c6Post : ℝ) + (chainAdd c6Ctx c6Post : ℝ) +
        (jitterOf c6Ctx c6Post : ℝ)) ∧
     (c6Ctx.batchMode = true →
      scoreReal c6Ctx c6Post =
        preSeenScore c6Ctx c6Post +
        (fatigueAdd c6Ctx c6Post : ℝ) + (chainAdd c6Ctx c6Post : ℝ) +
        (jitterOf c6Ctx c6Post : ℝ)) ∧
     (¬c6Ctx.batchMode → preSeenScore c6Ctx c6Post = 1000 →
      seenCountOf c6Ctx c6Post.uri = 2 → fatigueAdd c6Ctx c6Post = 0 →
      chainAdd c6Ctx c6Post = 0 → jitterOf c6Ctx c6Post = 0 →
      scorePost c6Ctx c6Post = 250)) :=
  ⟨by decide, by decide, seen_multiplier c6Ctx c6Post (by decide) (by decide)⟩

/-! ### C7: the negative-fatigue bonus is dead code -/

/-- The concrete post of the C7 witness, authored by an author with a
negative fatigue score. -/
def c7Post : Post :=
  { uri := "at://did:ex:fa/app.bsky.feed.post/1", cid := "c", author := "did:ex:fa"
    indexedAtMs := 0, likeCount := 20, replyCount := 0, repostCount := 0
    replyRoot := none, replyParent := none, text := none
    hasImage := false, hasVideo := false, hasExternal := false }

/-- The concrete fatigue row of the C7 witness: `fatigueScore = -10`, for
which the claim predicts a `+500` bonus. -/
def c7Fat : FatigueRow :=
  { userDid := "did:ex:u", authorDid := "did:ex:fa", serveCount := 3
    lastServedAtMs := 0, fatigueScore := -10, affinityScore := 2
    interactionWeight := 1, lastInteractionAtMs := some 0, interactionCount := 5
    updatedAtMs := 0 }

/-- The concrete ranking context of the C7 witness. -/
def c7Ctx : RankCtx :=
  { store :=
      { posts := [c7Post], follows := [], interactions := [], seen := []
        keywords := [], fatigue := [c7Fat], tasteSim := [], tasteRep := []
        infl := [] }
    nowMs := 0, requesterDid := "did:ex:u", batchMode := false }

/-- C7: the claim's negative-fatigue branch is dead code.  The source
computes `+50·|fatigueScore|` into the local `authorFatiguePenalty`, but
`score += authorFatiguePenalty` is only executed inside the
`fatigueScore > 40` branch, so whenever the candidate's author has a fatigue
record with `fatigueScore < 0` the author-fatigue contribution to the score
is `0`, never the claimed bonus. -/
theorem fatigueAdd_negative_bonus_dead (ctx : RankCtx) (p : Post)
    (af : FatigueRow) (h1 : authorFatigueOf ctx p.author = some af)
    (h2 : af.fatigueScore < 0) : fatigueAdd ctx p = 0 := by
  simp only [fatigueAdd, h1]
  rw [if_pos h2]

/-- Witness for C7: a fatigue row with score −10 (claimed bonus +500) whose
actual author-fatigue contribution is 0. -/
theorem fatigueAdd_negative_bonus_dead_witness :
    authorFatigueOf c7Ctx c7Post.author = some c7Fat ∧
    c7Fat.fatigueScore < 0 ∧ fatigueAdd c7Ctx c7Post = 0 :=
  ⟨by rfl, by norm_num [c7Fat],
    fatigueAdd_negative_bonus_dead c7Ctx c7Post c7Fat (by rfl)
      (by norm_num [c7Fat])⟩

/-- Witness for C10 at a concrete three-element pool with a repeated
author. -/
theorem applyAccountDiversity_perm_witness :
    (applyAccountDiversity
      [⟨{ uri := "at://did:ex:a/app.bsky.feed.post/1", cid := "", author := "did:ex:a"
          indexedAtMs := 0, likeCount := 0, replyCount := 0, repostCount := 0
          replyRoot := none, replyParent := none, text := none
          hasImage := false, hasVideo := false, hasExternal := false }, 100, none⟩,
       ⟨{ uri := "at://did:ex:a/app.bsky.feed.post/2", cid := "", author := "did:ex:a"
          indexedAtMs := 0, likeCount := 0, replyCount := 0, repostCount := 0
          replyRoot := none, replyParent := none, text := none
          hasImage := false, hasVideo := false, hasExternal := false }, 90, none⟩,
       ⟨{ uri := "at://did:ex:b/app.bsky.feed.post/3", cid := "", author := "did:ex:b"
          indexedAtMs := 0, likeCount := 0, replyCount := 0, repostCount := 0
          replyRoot := none, replyParent := none, text := none
          hasImage := false, hasVideo := false, hasExternal := false }, 80, none⟩]).Perm
      [⟨{ uri := "at://did:ex:a/app.bsky.feed.post/1", cid := "", author := "did:ex:a"
          indexedAtMs := 0, likeCount := 0, replyCount := 0, repostCount := 0
          replyRoot := none, replyParent := none, text := none
          hasImage := false, hasVideo := false, hasExternal := false }, 100, none⟩,
       ⟨{ uri := "at://did:ex:a/app.bsky.feed.post/2", cid := "", author := "did:ex:a"
          indexedAtMs := 0, likeCount := 0, replyCount := 0, repostCount := 0
          replyRoot := none, replyParent := none, text := none
          hasImage := false, hasVideo := false, hasExternal := false }, 90, none⟩,
       ⟨{ uri := "at://did:ex:b/app.bsky.feed.post/3", cid := "", author := "did:ex:b"
          indexedAtMs := 0, likeCount := 0, replyCount := 0, repostCount := 0
          replyRoot := none, replyParent := none, text := none
          hasImage := false, hasVideo := false, hasExternal := false }, 80, none⟩] :=
  (applyAccountDiversity_perm _).1

end FeedGen
